import Mathlib

/-!
Verification of the TPV forecasting and FX-scenario engine.

This file is a shallow embedding of the repository's forecasting core:

  * shared/calendar_service.py   — holiday / weekend / payday predicates
  * config/settings.py, config.py — configuration constants
  * agents/tpv_agent.py          — WMA base predictor, multiplier stack,
                                   confidence interval, anomaly detectors
  * agents/fx_prediction_engine.py — BPS scenario grid
  * models.py                    — ensemble forecaster

Python floats are modelled as exact rationals (ℚ), except where the code
computes genuinely irrational values (numpy exp-weights, standard
deviations), which are modelled in ℝ.  Python round(x, d) rounds half to
even; int() truncates toward zero.  Both are modelled exactly below.
-/

namespace TPVSpec

/-- Python round-half-to-even of a value to an integer: the semantics of
the built-in round applied to an exact decimal value. -/
def pyRoundInt {α : Type} [LinearOrderedField α] [FloorRing α] (x : α) : ℤ :=
  let f := ⌊x⌋
  let r := x - (f : α)
  if r < 1/2 then f
  else if 1/2 < r then f + 1
  else if f % 2 = 0 then f else f + 1

/-- Python round(x, d): round half-to-even at d decimal places. -/
def pyRound {α : Type} [LinearOrderedField α] [FloorRing α] (d : ℕ) (x : α) : α :=
  ((pyRoundInt (x * (10 : α) ^ d) : ℤ) : α) / (10 : α) ^ d

/-- Python int(): truncation toward zero. -/
def pyInt {α : Type} [LinearOrderedField α] [FloorRing α] (x : α) : ℤ :=
  if 0 ≤ x then ⌊x⌋ else ⌈x⌉

/-- Mean of a list, as numpy mean; the empty list yields 0 (division by
zero is 0 in Lean, where numpy would produce NaN). -/
def listMean {α : Type} [Field α] (l : List α) : α :=
  l.sum / (l.length : α)

/-! ## Dates (Python datetime.date, proleptic Gregorian) -/

/-- Calendar date, as Python datetime.date. -/
structure Date where
  year : ℕ
  month : ℕ
  day : ℕ
deriving DecidableEq, Repr

/-- Gregorian leap-year rule. -/
def isLeapYear (y : ℕ) : Bool :=
  y % 4 == 0 && (y % 100 != 0 || y % 400 == 0)

/-- Number of days in a month. -/
def daysInMonth (y m : ℕ) : ℕ :=
  if m = 2 then (if isLeapYear y then 29 else 28)
  else if m = 4 ∨ m = 6 ∨ m = 9 ∨ m = 11 then 30
  else 31

/-- Days in year y strictly before month m. -/
def daysBeforeMonth (y m : ℕ) : ℕ :=
  ((List.range (m - 1)).map (fun k => daysInMonth y (k + 1))).sum

/-- Python date.toordinal(): day number with 0001-01-01 as day 1. -/
def Date.toOrdinal (d : Date) : ℕ :=
  365 * (d.year - 1) + (d.year - 1) / 4 - (d.year - 1) / 100 + (d.year - 1) / 400
    + daysBeforeMonth d.year d.month + d.day

/-- Python date.weekday(): Monday = 0 … Sunday = 6. -/
def Date.weekday (d : Date) : ℕ :=
  (d.toOrdinal + 6) % 7

/-- The next calendar day (d + timedelta(days=1)). -/
def Date.succ (d : Date) : Date :=
  if d.day < daysInMonth d.year d.month then ⟨d.year, d.month, d.day + 1⟩
  else if d.month < 12 then ⟨d.year, d.month + 1, 1⟩
  else ⟨d.year + 1, 1, 1⟩

/-- The previous calendar day (d - timedelta(days=1)). -/
def Date.pred (d : Date) : Date :=
  if 1 < d.day then ⟨d.year, d.month, d.day - 1⟩
  else if 1 < d.month then ⟨d.year, d.month - 1, daysInMonth d.year (d.month - 1)⟩
  else ⟨d.year - 1, 12, 31⟩

/-- The date n days later (d + timedelta(days=n)). -/
def Date.addDays (d : Date) : ℕ → Date
  | 0 => d
  | n + 1 => (Date.addDays d n).succ

/-! ## shared/calendar_service.py -/

/-- Static UAE holiday set (2025–2026) from calendar_service.py. -/
def uaeHolidays : List Date :=
  [⟨2025, 1, 1⟩, ⟨2025, 3, 30⟩, ⟨2025, 3, 31⟩, ⟨2025, 4, 1⟩,
   ⟨2025, 6, 6⟩, ⟨2025, 6, 7⟩, ⟨2025, 6, 8⟩, ⟨2025, 6, 27⟩,
   ⟨2025, 9, 5⟩, ⟨2025, 12, 1⟩, ⟨2025, 12, 2⟩, ⟨2025, 12, 3⟩,
   ⟨2026, 1, 1⟩, ⟨2026, 3, 20⟩, ⟨2026, 3, 21⟩, ⟨2026, 3, 22⟩,
   ⟨2026, 5, 27⟩, ⟨2026, 5, 28⟩, ⟨2026, 5, 29⟩, ⟨2026, 6, 17⟩,
   ⟨2026, 8, 26⟩, ⟨2026, 12, 1⟩, ⟨2026, 12, 2⟩, ⟨2026, 12, 3⟩]

/-- Static UK holiday set (2025–2026) from calendar_service.py. -/
def ukHolidays : List Date :=
  [⟨2025, 1, 1⟩, ⟨2025, 4, 18⟩, ⟨2025, 4, 21⟩, ⟨2025, 5, 5⟩,
   ⟨2025, 5, 26⟩, ⟨2025, 8, 25⟩, ⟨2025, 12, 25⟩, ⟨2025, 12, 26⟩,
   ⟨2026, 1, 1⟩, ⟨2026, 4, 3⟩, ⟨2026, 4, 6⟩, ⟨2026, 5, 4⟩,
   ⟨2026, 5, 25⟩, ⟨2026, 8, 31⟩, ⟨2026, 12, 25⟩, ⟨2026, 12, 28⟩]

/-- CalendarService.get_holidays: the holiday map, empty for unknown countries. -/
def get_holidays (country : String) : List Date :=
  if country = "UAE" then uaeHolidays
  else if country = "UK" then ukHolidays
  else []

/-- CalendarService.is_holiday. -/
def is_holiday (d : Date) (country : String) : Bool :=
  (get_holidays country).contains d

/-- CalendarService.is_weekend: UAE weekend is Friday–Saturday (4, 5);
default is Saturday–Sunday (5, 6). -/
def is_weekend (d : Date) (country : String) : Bool :=
  if country = "UAE" then d.weekday == 4 || d.weekday == 5
  else d.weekday == 5 || d.weekday == 6

/-- CalendarService.is_payday_window: 25 ≤ day-of-month ≤ 28. -/
def is_payday_window (d : Date) : Bool :=
  decide (25 ≤ d.day ∧ d.day ≤ 28)

/-- CalendarService.is_month_end: the next day is in a different month. -/
def is_month_end (d : Date) : Bool :=
  d.succ.month != d.month

/-- CalendarService.is_day_before_holiday. -/
def is_day_before_holiday (d : Date) (country : String) : Bool :=
  is_holiday d.succ country ||
    (is_weekend d.succ country && is_holiday d.succ.succ country)

/-- CalendarService.is_day_after_holiday. -/
def is_day_after_holiday (d : Date) (country : String) : Bool :=
  is_holiday d.pred country

/-- CalendarService.holiday_lookahead restricted to one country: the
holidays among the next `days` days (flags.get(country, []) in the code;
an absent key and an empty list coincide in this model). -/
def holiday_lookahead_flags (d : Date) (days : ℕ) (country : String) : List Date :=
  (List.range days).filterMap (fun i =>
    let check := d.addDays (i + 1)
    if is_holiday check country then some check else none)

/-! ## config/settings.py -/

/-- TPVForecastConfig (settings.py); float defaults written as exact
rationals. -/
structure TPVForecastConfig where
  wma_lookback_weeks : ℕ
  wma_decay : ℚ
  payday_multiplier_min : ℚ
  payday_multiplier_max : ℚ
  holiday_pre_multiplier : ℚ
  holiday_post_multiplier : ℚ
  weekend_decay : ℚ
  month_end_multiplier : ℚ
  total_multiplier_cap : ℚ
  high_cv_threshold : ℚ
  medium_cv_threshold : ℚ
  ci_z_score : ℚ

/-- The default TPVForecastConfig instance (module-level `cfg = settings.tpv`). -/
def cfg : TPVForecastConfig where
  wma_lookback_weeks := 12
  wma_decay := 85/100
  payday_multiplier_min := 110/100
  payday_multiplier_max := 135/100
  holiday_pre_multiplier := 120/100
  holiday_post_multiplier := 85/100
  weekend_decay := 70/100
  month_end_multiplier := 115/100
  total_multiplier_cap := 180/100
  high_cv_threshold := 10/100
  medium_cv_threshold := 20/100
  ci_z_score := 1282/1000

/-- RegionConfig (settings.py), the fields the forecasting core reads. -/
structure RegionConfig where
  name : String
  currency : String
  holidays_country : String

/-- The settings.regions map: the two configured regions. -/
def regionsConfig : List (String × RegionConfig) :=
  [("UAE", ⟨"UAE", "AED", "UAE"⟩), ("UK", ⟨"UK", "GBP", "UK"⟩)]

/-- settings.regions[region].holidays_country (Python raises KeyError on an
unknown region; the claims only involve the configured regions). -/
def regionHolidaysCountry (region : String) : String :=
  ((regionsConfig.lookup region).map RegionConfig.holidays_country).getD ""

/-! ## agents/tpv_agent.py — data access and forecast engine -/

/-- One row of the per-region historical series (the Excel columns the
engine reads: Date, Daily_TPV, Transactions, Users).  The external data
loader (out of core scope) supplies this list sorted ascending by date. -/
structure HistRow where
  date : Date
  daily_tpv : ℚ
  transactions : ℚ
  users : ℚ
deriving DecidableEq, Repr

/-- Insert a row into a list that is sorted descending by date ordinal. -/
def insertDesc (x : HistRow) : List HistRow → List HistRow
  | [] => [x]
  | y :: ys =>
      if x.date.toOrdinal ≥ y.date.toOrdinal then x :: y :: ys
      else y :: insertDesc x ys

/-- pandas sort_values("Date", ascending=False) on distinct dates. -/
def sortDatesDesc : List HistRow → List HistRow
  | [] => []
  | x :: xs => insertDesc x (sortDatesDesc xs)

/-- fetch_historical_volumes: same-weekday Daily_TPV values over the
trailing `weeks` weeks, newest-last, None for missing slots.  The `hist`
argument stands for get_historical_region(region). -/
def fetch_historical_volumes (hist : List HistRow) (target_date : Date)
    (weeks : ℕ) : List (Option ℚ) :=
  if hist = [] then List.replicate weeks none
  else
    let same_dow := sortDatesDesc
      (hist.filter (fun r => r.date.weekday == target_date.weekday))
    ((List.range weeks).map (fun i => (same_dow.get? i).map HistRow.daily_tpv)).reverse

/-- Population variance, the square of numpy std. -/
def npVariance (l : List ℚ) : ℚ :=
  listMean (l.map (fun x => (x - listMean l) ^ 2))

/-- numpy std (population standard deviation). -/
noncomputable def npStd (l : List ℚ) : ℝ :=
  Real.sqrt (npVariance l)

/-- ConfidenceLevel (shared/schemas.py). -/
inductive ConfidenceLevel
  | HIGH
  | MEDIUM
  | LOW
deriving DecidableEq, Repr

/-- AlertSeverity (shared/schemas.py), the two values the detectors use. -/
inductive AlertSeverity
  | WARNING
  | CRITICAL
deriving DecidableEq, Repr

/-- MultiplierDetail (shared/schemas.py). -/
structure MultiplierDetail where
  name : String
  value : ℚ
  reason : String

/-- TPVForecastEngine._wma: exponentially-decayed weighted moving average;
gaps (None) are filled with the mean of the non-null values.
self.decay is cfg.wma_decay (set in __init__). -/
def _wma (volumes : List (Option ℚ)) : ℚ :=
  let non_null := volumes.filterMap id
  let fallback := if non_null = [] then 0 else listMean non_null
  let filled := volumes.map (fun v => v.getD fallback)
  if filled = [] then 0
  else
    let n := filled.length
    let weights := (List.range n).map (fun i => cfg.wma_decay ^ (n - 1 - i))
    let wsum := weights.sum
    ((weights.map (fun w => w / wsum)).zip filled).foldl
      (fun acc p => acc + p.1 * p.2) 0

/-- TPVForecastEngine._confidence_interval. -/
noncomputable def _confidence_interval (base : ℚ) (volumes : List (Option ℚ)) :
    ℝ × ℝ × ConfidenceLevel :=
  let non_null := volumes.filterMap id
  if non_null = [] then
    ((base : ℝ) * (8/10), (base : ℝ) * (12/10), ConfidenceLevel.LOW)
  else
    let std := npStd non_null
    let cv : ℝ := if base ≠ 0 then std / (base : ℝ) else 1
    let z : ℝ := (cfg.ci_z_score : ℚ)
    let lower := max 0 ((base : ℝ) - z * std)
    let upper := (base : ℝ) + z * std
    let confidence :=
      if cv < ((cfg.high_cv_threshold : ℚ) : ℝ) then ConfidenceLevel.HIGH
      else if cv < ((cfg.medium_cv_threshold : ℚ) : ℝ) then ConfidenceLevel.MEDIUM
      else ConfidenceLevel.LOW
    (lower, upper, confidence)

/-- Day-of-week seasonal factor table in compute_multipliers
(dow_factors.get(weekday, 1.0)). -/
def dowFactor (w : ℕ) : ℚ :=
  if w = 0 then 95/100
  else if w = 1 then 1
  else if w = 2 then 1
  else if w = 3 then 105/100
  else if w = 4 then 108/100
  else if w = 5 then 82/100
  else if w = 6 then 72/100
  else 1

/-- TPVForecastEngine.compute_multipliers: the ordered multiplier stack for
a date and region.  Reason strings are abbreviated (the code interpolates
dates into them; no claim depends on their content). -/
def compute_multipliers (target_date : Date) (region : String) :
    List MultiplierDetail :=
  let country := regionHolidaysCountry region
  (if is_payday_window target_date then
    [{ name := "payday_window",
       value := (cfg.payday_multiplier_min + cfg.payday_multiplier_max) / 2,
       reason := "payday window (25-28)" }]
   else [])
  ++ (if is_day_before_holiday target_date country then
        [{ name := "pre_holiday", value := cfg.holiday_pre_multiplier,
           reason := "day before holiday" }]
      else if is_day_after_holiday target_date country then
        [{ name := "post_holiday", value := cfg.holiday_post_multiplier,
           reason := "day after holiday" }]
      else [])
  ++ (if 2 ≤ (holiday_lookahead_flags target_date 3 country).length then
        [{ name := "double_holiday_prefund", value := 130/100,
           reason := "double holiday in next 3 days" }]
      else [])
  ++ (if is_month_end target_date then
        [{ name := "month_end", value := cfg.month_end_multiplier,
           reason := "month-end settlement spike" }]
      else [])
  ++ (if is_weekend target_date country then
        [{ name := "weekend", value := cfg.weekend_decay,
           reason := "weekend" }]
      else [])
  ++ (let dow_val := dowFactor target_date.weekday
      if dow_val ≠ 1 then
        [{ name := "day_of_week", value := dow_val,
           reason := "seasonal factor" }]
      else [])

/-- The dict returned by TPVForecastEngine.forecast. -/
structure ForecastResult where
  base_tpv : ℚ
  stacked_multiplier : ℚ
  forecast_tpv : ℚ
  lower_ci : ℝ
  upper_ci : ℝ
  confidence : ConfidenceLevel
  multipliers : List MultiplierDetail

/-- TPVForecastEngine.forecast: full pipeline for one date and region.
self.lookback is cfg.wma_lookback_weeks (set in __init__). -/
noncomputable def forecast (hist : List HistRow) (target_date : Date)
    (region : String) : ForecastResult :=
  let volumes := fetch_historical_volumes hist target_date cfg.wma_lookback_weeks
  let base := _wma volumes
  let ci := _confidence_interval base volumes
  let multipliers := compute_multipliers target_date region
  let stacked := min (multipliers.foldl (fun acc m => acc * m.value) 1)
    cfg.total_multiplier_cap
  let forecast_tpv := base * stacked
  { base_tpv := pyRound 2 base
    stacked_multiplier := pyRound 4 stacked
    forecast_tpv := pyRound 2 forecast_tpv
    lower_ci := pyRound 2 (ci.1 * ((stacked : ℚ) : ℝ))
    upper_ci := pyRound 2 (ci.2.1 * ((stacked : ℚ) : ℝ))
    confidence := ci.2.2
    multipliers := multipliers }

/-! ## agents/tpv_agent.py — AnomalyDetector

Both checks read the Daily_TPV column of the last rows of the region's
historical series; the `series` argument below is that column in date
order (fetch_recent_volumes returns hist.tail(n)). -/

/-- The last n elements of a list (pandas DataFrame.tail). -/
def listTail {α : Type} (l : List α) (n : ℕ) : List α :=
  l.drop (l.length - n)

/-- The dict returned by AnomalyDetector.check_deviation. -/
structure DeviationResult where
  latest : ℚ
  avg_7d : ℚ
  deviation_pct : ℚ
  severity : AlertSeverity
deriving DecidableEq, Repr

/-- AnomalyDetector.check_deviation: flag when the latest value deviates
more than 20% from the mean of the preceding 7. -/
def check_deviation (series : List ℚ) : Option DeviationResult :=
  let recent := listTail series 8
  if recent.length < 8 then none
  else
    let latest := recent.getLastD 0
    let avg_7d := listMean recent.dropLast
    if avg_7d = 0 then none
    else
      let deviation := ((latest - avg_7d) / avg_7d) * 100
      if 20 < |deviation| then
        some { latest := latest, avg_7d := avg_7d,
               deviation_pct := pyRound 2 deviation,
               severity := if 40 < |deviation| then AlertSeverity.CRITICAL
                 else AlertSeverity.WARNING }
      else none

/-- The dict returned by AnomalyDetector.check_growth. -/
structure GrowthResult where
  avg_7d : ℚ
  avg_30d : ℚ
  growth_pct : ℚ
  direction : String
  severity : AlertSeverity
deriving DecidableEq, Repr

/-- AnomalyDetector.check_growth: flag when the 7-day mean deviates more
than 15% from the 30-day mean. -/
def check_growth (series : List ℚ) : Option GrowthResult :=
  let recent := listTail series 30
  if recent.length < 14 then none
  else
    let avg_7d := listMean (listTail recent 7)
    let avg_30d := listMean recent
    if avg_30d = 0 then none
    else
      let growth := ((avg_7d - avg_30d) / avg_30d) * 100
      if 15 < |growth| then
        some { avg_7d := avg_7d, avg_30d := avg_30d,
               growth_pct := pyRound 2 growth,
               direction := if 0 < growth then "ACCELERATING" else "DECELERATING",
               severity := AlertSeverity.WARNING }
      else none

/-! ## config/settings.py — FXConfig -/

/-- FXConfig.bps_levels: the 9 canonical BPS offsets. -/
def bps_levels : List ℤ := [-20, -15, -10, -5, 0, 5, 10, 15, 20]

/-- FXConfig.fx_forecast_days. -/
def fx_forecast_days : ℕ := 7

/-- FXConfig.uae_tpv_multipliers. -/
def uae_tpv_multipliers : List (ℤ × ℚ) :=
  [(-20, 9036/10000), (-15, 9385/10000), (-10, 9574/10000), (-5, 9932/10000),
   (0, 1), (5, 12417/10000), (10, 15147/10000), (15, 16727/10000), (20, 17404/10000)]

/-- FXConfig.uae_tu_multipliers. -/
def uae_tu_multipliers : List (ℤ × ℚ) :=
  [(-20, 9618/10000), (-15, 9923/10000), (-10, 10047/10000), (-5, 10015/10000),
   (0, 1), (5, 11287/10000), (10, 11813/10000), (15, 11940/10000), (20, 11974/10000)]

/-- FXConfig.uk_tpv_multipliers. -/
def uk_tpv_multipliers : List (ℤ × ℚ) :=
  [(-20, 82/100), (-15, 86/100), (-10, 90/100), (-5, 95/100),
   (0, 1), (5, 106/100), (10, 113/100), (15, 119/100), (20, 124/100)]

/-- FXConfig.uk_tu_multipliers. -/
def uk_tu_multipliers : List (ℤ × ℚ) :=
  [(-20, 88/100), (-15, 91/100), (-10, 94/100), (-5, 97/100),
   (0, 1), (5, 104/100), (10, 108/100), (15, 112/100), (20, 115/100)]

/-- The per-region parameter record built in FXScenarioEngine.__init__. -/
structure RegionFXParams where
  base_fx : ℚ
  fx_per_5bps : ℚ
  currency_pair : String
  tpv_multipliers : List (ℤ × ℚ)
  tu_multipliers : List (ℤ × ℚ)

/-- FXScenarioEngine._region_params (Python raises KeyError for a region
other than the two configured ones; the claims only involve those, and an
unknown region here yields a harmless empty record). -/
def _region_params (region : String) : RegionFXParams :=
  if region = "UAE" then
    ⟨246611/10000, 5/100, "AED/USD", uae_tpv_multipliers, uae_tu_multipliers⟩
  else if region = "UK" then
    ⟨1235/10, 2/10, "GBP/USD", uk_tpv_multipliers, uk_tu_multipliers⟩
  else ⟨0, 0, "", [], []⟩

/-! ## agents/fx_prediction_engine.py -/

/-- Ascending insertion into a sorted integer list. -/
def insertAsc (x : ℤ) : List ℤ → List ℤ
  | [] => [x]
  | y :: ys => if x ≤ y then x :: y :: ys else y :: insertAsc x ys

/-- Python sorted() on integer keys. -/
def sortAsc : List ℤ → List ℤ
  | [] => []
  | x :: xs => insertAsc x (sortAsc xs)

/-- The interpolation loop in FXScenarioEngine._get_multiplier: walk the
adjacent pairs of the sorted levels, and on the bracketing pair return the
linear interpolation; the trailing `return 1.0` is the fall-through. -/
def interpLoop (mult_table : List (ℤ × ℚ)) (bps : ℤ) : List ℤ → ℚ
  | lo :: hi :: rest =>
      if lo ≤ bps ∧ bps ≤ hi then
        let vlo := (mult_table.lookup lo).getD 1
        let vhi := (mult_table.lookup hi).getD 1
        vlo + (((bps - lo : ℤ) : ℚ) / ((hi - lo : ℤ) : ℚ)) * (vhi - vlo)
      else interpLoop mult_table bps (hi :: rest)
  | _ => 1

/-- FXScenarioEngine._get_multiplier: exact table hit, else clamp to the
table edges, else piecewise-linear interpolation.  Dict lookups of keys
known to be present are modelled with .getD 1 (the default is never
reached for a table that contains its own keys); an empty table would
raise an IndexError in Python and yields 1 here (never the case for the
four configured tables). -/
def _get_multiplier (mult_table : List (ℤ × ℚ)) (bps : ℤ) : ℚ :=
  match mult_table.lookup bps with
  | some v => v
  | none =>
      let levels := sortAsc (mult_table.map Prod.fst)
      match levels with
      | [] => 1
      | l0 :: rest =>
          if bps ≤ l0 then (mult_table.lookup l0).getD 1
          else if (l0 :: rest).getLastD l0 ≤ bps then
            (mult_table.lookup ((l0 :: rest).getLastD l0)).getD 1
          else interpLoop mult_table bps (l0 :: rest)

/-- FXScenarioEngine._get_fx_rate. -/
def _get_fx_rate (region : String) (bps : ℤ) (custom_base_fx : Option ℚ) : ℚ :=
  let params := _region_params region
  let base := custom_base_fx.getD params.base_fx
  let offset := ((bps : ℚ) / 5) * params.fx_per_5bps
  pyRound 4 (base + offset)

/-- FXScenarioEngine._get_usdinr_rate.  Modelled from the spec: the
usdinr_base / usdinr_per_5bps configuration the engine constructor reads
is absent from the snapshot's config/settings.py (§6 of the spec lists the
cross-rate configuration), so the two values are explicit parameters here;
no claim depends on them. -/
def _get_usdinr_rate (usdinr_base usdinr_per_5bps : ℚ) (bps : ℤ)
    (custom_usdinr : Option ℚ) : ℚ :=
  let base := custom_usdinr.getD usdinr_base
  let offset := ((bps : ℚ) / 5) * usdinr_per_5bps
  pyRound 2 (base + offset)

/-- numpy linspace(a, b, n): n evenly spaced points including endpoints. -/
noncomputable def linspace (a b : ℝ) (n : ℕ) : List ℝ :=
  match n with
  | 0 => []
  | 1 => [a]
  | _ => (List.range n).map (fun i : ℕ => a + (b - a) * (i : ℝ) / ((n : ℝ) - 1))

/-- numpy dot product of two equal-length lists. -/
noncomputable def dotR (ws vs : List ℝ) : ℝ :=
  (ws.zip vs).foldl (fun acc p => acc + p.1 * p.2) 0

/-- One entry of the list FXScenarioEngine._get_base_predictions returns. -/
structure BasePred where
  date : Date
  base_tpv : ℝ
  base_tu : ℤ
  base_arpu : ℝ

/-- FXScenarioEngine._get_base_predictions: per-date base TPV and TU from
the exponentially weighted same-weekday average, falling back to trailing
28-row means when no same-weekday row exists, then scaled by the dampened
7-day vs 14-day trend factor. -/
noncomputable def _get_base_predictions (hist : List HistRow)
    (start_date : Date) (days : ℕ) : List BasePred :=
  if hist.isEmpty then []
  else
    (List.range days).map (fun i =>
      let target := start_date.addDays i
      let same_dow := sortDatesDesc
        (hist.filter (fun r => r.date.weekday == target.weekday))
      let pair : ℝ × ℤ :=
        if same_dow.isEmpty then
          let recent := listTail hist 28
          (((listMean (recent.map HistRow.daily_tpv) : ℚ) : ℝ),
           pyInt (listMean (recent.map HistRow.transactions)))
        else
          let n := min same_dow.length 12
          let recent_dow := same_dow.take n
          let ws := (linspace 0 (-2) n).map Real.exp
          let wnorm := ws.map (fun w => w / ws.sum)
          let tpv_vals := recent_dow.map (fun r => ((r.daily_tpv : ℚ) : ℝ))
          let tu_vals := recent_dow.map (fun r => ((r.transactions : ℚ) : ℝ))
          (dotR wnorm tpv_vals, max 1 (pyInt (dotR wnorm tu_vals)))
      let base_tu := pair.2
      let recent_7d := listMean ((listTail hist 7).map HistRow.daily_tpv)
      let recent_14d := listMean ((listTail hist 14).map HistRow.daily_tpv)
      let base_tpv :=
        if 0 < recent_14d then
          pair.1 * ((max (9/10) (min (11/10) (recent_7d / recent_14d)) : ℚ) : ℝ)
        else pair.1
      { date := target,
        base_tpv := pyRound 2 base_tpv,
        base_tu := base_tu,
        base_arpu := pyRound 2 (base_tpv / ((max base_tu 1 : ℤ) : ℝ)) })

/-- FXScenario (shared/schemas.py), with the usdinr_rate value the engine
attaches (the pydantic schema silently drops it; the engine and dashboard
read it, so it is kept here). -/
structure FXScenario where
  bps_change : ℤ
  fx_rate : ℚ
  usdinr_rate : ℚ
  total_tpv : ℝ
  total_tu : ℤ
  avg_arpu : ℝ
  tpv_change_pct : ℝ

/-- The scenario built for one BPS level in the inner loop of
FXScenarioEngine.generate_predictions. -/
noncomputable def makeScenario (region : String)
    (usdinr_base usdinr_per_5bps : ℚ)
    (custom_base_fx custom_usdinr : Option ℚ)
    (base_tpv : ℝ) (base_tu : ℤ) (bps : ℤ) : FXScenario :=
  let params := _region_params region
  let fx_rate := _get_fx_rate region bps custom_base_fx
  let usdinr_rate := _get_usdinr_rate usdinr_base usdinr_per_5bps bps custom_usdinr
  let tpv_mult := _get_multiplier params.tpv_multipliers bps
  let tu_mult := _get_multiplier params.tu_multipliers bps
  let scenario_tpv := base_tpv * ((tpv_mult : ℚ) : ℝ)
  let scenario_tu : ℤ := max 1 (pyInt ((base_tu : ℤ) * ((tu_mult : ℚ) : ℝ)))
  let scenario_arpu := scenario_tpv / ((scenario_tu : ℤ) : ℝ)
  let base_tpv_at_0 := base_tpv * ((_get_multiplier params.tpv_multipliers 0 : ℚ) : ℝ)
  let tpv_change_pct := ((scenario_tpv - base_tpv_at_0) / max base_tpv_at_0 1) * 100
  { bps_change := bps
    fx_rate := fx_rate
    usdinr_rate := usdinr_rate
    total_tpv := pyRound 0 scenario_tpv
    total_tu := scenario_tu
    avg_arpu := pyRound 2 scenario_arpu
    tpv_change_pct := pyRound 2 tpv_change_pct }

/-- FXPredictionBlock (shared/schemas.py). -/
structure FXPredictionBlock where
  prediction_date : Date
  day_of_week : String
  scenarios : List FXScenario
  base_tpv : ℝ
  base_tu : ℤ
  base_arpu : ℝ

/-- FXRegionPrediction (shared/schemas.py), with the base_usdinr value the
engine attaches. -/
structure FXRegionPrediction where
  region : String
  base_fx_rate : ℚ
  base_usdinr : ℚ
  currency_pair : String
  prediction_blocks : List FXPredictionBlock

/-- strftime("%A"). -/
def weekdayName (w : ℕ) : String :=
  if w = 0 then "Monday" else if w = 1 then "Tuesday" else if w = 2 then "Wednesday"
  else if w = 3 then "Thursday" else if w = 4 then "Friday"
  else if w = 5 then "Saturday" else "Sunday"

/-- Junk scenario for the .getD of the base-scenario search; never reached
because bps_levels contains 0 (Python's next() would raise otherwise). -/
noncomputable def defaultScenario : FXScenario :=
  ⟨0, 0, 0, 0, 0, 0, 0⟩

/-- FXScenarioEngine.generate_predictions.  Python resolves
`days = days or fx_cfg.fx_forecast_days` (None and 0 both fall back to the
config value); start_date defaults to today at the call boundary and is an
explicit argument here.  The hist argument stands for
get_historical_region(region). -/
noncomputable def generate_predictions (hist : List HistRow) (region : String)
    (usdinr_base usdinr_per_5bps : ℚ)
    (custom_base_fx custom_usdinr : Option ℚ)
    (start_date : Date) (days0 : Option ℕ) : FXRegionPrediction :=
  let days := if days0.getD 0 = 0 then fx_forecast_days else days0.getD 0
  let params := _region_params region
  let base_fx := custom_base_fx.getD params.base_fx
  let base_usdinr := custom_usdinr.getD usdinr_base
  let base_predictions := _get_base_predictions hist start_date days
  if base_predictions.isEmpty then
    { region := region, base_fx_rate := base_fx, base_usdinr := base_usdinr,
      currency_pair := params.currency_pair, prediction_blocks := [] }
  else
    { region := region
      base_fx_rate := base_fx
      base_usdinr := base_usdinr
      currency_pair := params.currency_pair
      prediction_blocks := base_predictions.map (fun pred =>
        let scenarios := bps_levels.map
          (makeScenario region usdinr_base usdinr_per_5bps custom_base_fx
            custom_usdinr pred.base_tpv pred.base_tu)
        let base_scenario :=
          (scenarios.find? (fun s => s.bps_change == 0)).getD defaultScenario
        { prediction_date := pred.date
          day_of_week := weekdayName pred.date.weekday
          scenarios := scenarios
          base_tpv := base_scenario.total_tpv
          base_tu := base_scenario.total_tu
          base_arpu := base_scenario.avg_arpu }) }

/-! ## config.py and models.py — ensemble forecaster -/

/-- ENSEMBLE_WEIGHTS (config.py). -/
def ENSEMBLE_WEIGHTS : List (String × ℚ) :=
  [("seasonal_linear", 40/100), ("wma", 35/100), ("linear", 25/100)]

/-- models._date_to_ordinal: regression runs on date ordinals. -/
def _date_to_ordinal (dates : List Date) : List ℚ :=
  dates.map (fun d => (d.toOrdinal : ℚ))

/-- LinearTrendModel state after fit: slope, intercept and R². -/
structure LinearTrendModel where
  slope : ℚ
  intercept : ℚ
  r2 : ℚ
deriving DecidableEq, Repr

/-- LinearTrendModel.fit: sklearn LinearRegression on one feature is
ordinary least squares in closed form — slope = Sxy/Sxx,
intercept = ȳ − slope·x̄ — and .score is R² = 1 − SSres/SStot. -/
def LinearTrendModel.fit (dates : List Date) (values : List ℚ) :
    LinearTrendModel :=
  let xs := _date_to_ordinal dates
  let ys := values
  let xbar := listMean xs
  let ybar := listMean ys
  let sxx := (xs.map (fun x => (x - xbar) ^ 2)).sum
  let sxy := ((xs.zip ys).map (fun p => (p.1 - xbar) * (p.2 - ybar))).sum
  let slope := sxy / sxx
  let intercept := ybar - slope * xbar
  let ssres := ((xs.zip ys).map
    (fun p => (p.2 - (slope * p.1 + intercept)) ^ 2)).sum
  let sstot := (ys.map (fun y => (y - ybar) ^ 2)).sum
  ⟨slope, intercept, 1 - ssres / sstot⟩

/-- LinearTrendModel.predict. -/
def LinearTrendModel.predict (m : LinearTrendModel) (dates : List Date) :
    List ℚ :=
  dates.map (fun d => m.slope * (d.toOrdinal : ℚ) + m.intercept)

/-- WeightedMovingAvgModel state after fit. -/
structure WeightedMovingAvgModel where
  window : ℕ
  last_values : List ℚ

/-- WeightedMovingAvgModel.fit: store the trailing `window` values. -/
def WeightedMovingAvgModel.fit (window : ℕ) (values : List ℚ) :
    WeightedMovingAvgModel :=
  ⟨window, listTail values window⟩

/-- WeightedMovingAvgModel.predict: normalized exp(linspace(-2, 0, n))
weights over the stored tail give the base; the 7-day vs 14-day trend is
added per requested-date index. -/
noncomputable def WeightedMovingAvgModel.predict (m : WeightedMovingAvgModel)
    (dates : List Date) : List ℝ :=
  let weights := (linspace (-2) 0 m.last_values.length).map Real.exp
  let wnorm := weights.map (fun w => w / weights.sum)
  let base := dotR wnorm (m.last_values.map (fun v => ((v : ℚ) : ℝ)))
  let recent_trend : ℚ :=
    if 14 ≤ m.last_values.length then
      (listMean (listTail m.last_values 7)
        - listMean ((listTail m.last_values 14).take 7)) / 7
    else 0
  (List.range dates.length).map
    (fun i : ℕ => base + ((recent_trend : ℚ) : ℝ) * (i : ℝ))

/-- Ascending insertion into a sorted rational list. -/
def insertAscQ (x : ℚ) : List ℚ → List ℚ
  | [] => [x]
  | y :: ys => if x ≤ y then x :: y :: ys else y :: insertAscQ x ys

/-- Sort a rational list ascending. -/
def sortAscQ : List ℚ → List ℚ
  | [] => []
  | x :: xs => insertAscQ x (sortAscQ xs)

/-- pandas Series.median: middle of the sorted values, or the mean of the
two middle values for an even count (0 for the empty list, which pandas
would give as NaN; groupby only produces nonempty groups). -/
def listMedian (l : List ℚ) : ℚ :=
  let s := sortAscQ l
  let n := s.length
  if n = 0 then 0
  else if n % 2 = 1 then s.getD (n / 2) 0
  else (s.getD (n / 2 - 1) 0 + s.getD (n / 2) 0) / 2

/-- SeasonalLinearModel state after fit. -/
structure SeasonalLinearModel where
  linear : LinearTrendModel
  dow_factors : List ℚ
  seasonal_window : ℕ

/-- SeasonalLinearModel.fit: fit the linear model, then per-weekday
multiplicative factors as the median of actual / max(predicted, 1) over
the recent window (min(seasonal_window, n) points), defaulting to 1.0 for
weekdays with no data. -/
def SeasonalLinearModel.fit (seasonal_window : ℕ) (dates : List Date)
    (values : List ℚ) : SeasonalLinearModel :=
  let linear := LinearTrendModel.fit dates values
  let window := min seasonal_window dates.length
  let recent_dates := listTail dates window
  let recent_values := listTail values window
  let recent_trend := linear.predict recent_dates
  let safe_trend := recent_trend.map (fun t => max t 1)
  let ratios := (recent_values.zip safe_trend).map (fun p => p.1 / p.2)
  let dow_factors := (List.range 7).map (fun w =>
    let group := ((recent_dates.zip ratios).filter
      (fun p => p.1.weekday == w)).map Prod.snd
    if group = [] then 1 else listMedian group)
  ⟨linear, dow_factors, seasonal_window⟩

/-- SeasonalLinearModel.predict: linear prediction scaled by the
day-of-week factor. -/
def SeasonalLinearModel.predict (m : SeasonalLinearModel)
    (dates : List Date) : List ℚ :=
  (dates.zip (m.linear.predict dates)).map
    (fun p => p.2 * (m.dow_factors.getD p.1.weekday 1))

/-- EnsembleForecaster state after fit. -/
structure EnsembleForecaster where
  linear : LinearTrendModel
  wma : WeightedMovingAvgModel
  seasonal : SeasonalLinearModel

/-- EnsembleForecaster.fit: fit all three models (window 28, seasonal
window 90 as in __init__). -/
def EnsembleForecaster.fit (dates : List Date) (values : List ℚ) :
    EnsembleForecaster :=
  ⟨LinearTrendModel.fit dates values,
   WeightedMovingAvgModel.fit 28 values,
   SeasonalLinearModel.fit 90 dates values⟩

/-- One row of the DataFrame EnsembleForecaster.predict returns. -/
structure EnsembleRow where
  date : Date
  Linear : ℝ
  WMA : ℝ
  Seasonal : ℝ
  Ensemble : ℝ
  Low : ℝ
  High : ℝ

/-- Population standard deviation of a list of reals (numpy std). -/
noncomputable def npStdReal (l : List ℝ) : ℝ :=
  Real.sqrt (listMean (l.map (fun x => (x - listMean l) ^ 2)))

/-- The i-th row of EnsembleForecaster.predict (the code computes the
three prediction arrays once and combines them columnwise; this is the
same computation expressed per index). -/
noncomputable def EnsembleForecaster.predictRow (m : EnsembleForecaster)
    (dates : List Date) (i : ℕ) : EnsembleRow :=
  let p_lin := (((m.linear.predict dates).getD i 0 : ℚ) : ℝ)
  let p_wma := (m.wma.predict dates).getD i 0
  let p_sea := (((m.seasonal.predict dates).getD i 0 : ℚ) : ℝ)
  let wl := (((ENSEMBLE_WEIGHTS.lookup "linear").getD 0 : ℚ) : ℝ)
  let ww := (((ENSEMBLE_WEIGHTS.lookup "wma").getD 0 : ℚ) : ℝ)
  let ws := (((ENSEMBLE_WEIGHTS.lookup "seasonal_linear").getD 0 : ℚ) : ℝ)
  let ensemble := wl * p_lin + ww * p_wma + ws * p_sea
  let std := npStdReal [p_lin, p_wma, p_sea]
  { date := dates.getD i ⟨1, 1, 1⟩
    Linear := max p_lin 0
    WMA := max p_wma 0
    Seasonal := max p_sea 0
    Ensemble := max ensemble 0
    Low := max (ensemble - std) 0
    High := max (ensemble + std) 0 }

/-- EnsembleForecaster.predict. -/
noncomputable def EnsembleForecaster.predict (m : EnsembleForecaster)
    (dates : List Date) : List EnsembleRow :=
  (List.range dates.length).map (m.predictRow dates)

/-- The ensemble value the spec describes: fixed weights applied to the
three model outputs after each is clamped to zero from below (spec §4.2
"all three negative-clamped to zero before combination").  Kept separate
from the code's computation for comparison. -/
noncomputable def specEnsembleValue (p_lin p_wma p_sea : ℝ) : ℝ :=
  (1/4 : ℝ) * max p_lin 0 + (7/20 : ℝ) * max p_wma 0 + (2/5 : ℝ) * max p_sea 0

/-! ## Supporting lemmas -/

theorem pyRoundInt_le_ceil {α : Type} [LinearOrderedField α] [FloorRing α]
    (x : α) : pyRoundInt x ≤ ⌈x⌉ := by
  have hfc : ⌊x⌋ ≤ ⌈x⌉ := Int.floor_le_ceil x
  have hkey : ¬(x - ((⌊x⌋ : ℤ) : α) < 1/2) → ⌊x⌋ + 1 ≤ ⌈x⌉ := by
    intro h1
    have h2 : (1 : α)/2 ≤ x - ((⌊x⌋ : ℤ) : α) := not_lt.mp h1
    refine Int.lt_ceil.mpr ?_
    nlinarith
  show (if x - ((⌊x⌋ : ℤ) : α) < 1/2 then ⌊x⌋
    else if 1/2 < x - ((⌊x⌋ : ℤ) : α) then ⌊x⌋ + 1
    else if ⌊x⌋ % 2 = 0 then ⌊x⌋ else ⌊x⌋ + 1) ≤ ⌈x⌉
  split_ifs with h1 h2 h3
  · exact hfc
  · exact hkey h1
  · exact hfc
  · exact hkey h1

theorem pyRound_le_nine_fifths (x : ℚ) (h : x ≤ 9/5) : pyRound 4 x ≤ 9/5 := by
  unfold pyRound
  rw [div_le_iff₀ (by norm_num : (0 : ℚ) < 10 ^ 4)]
  have h1 : pyRoundInt (x * 10 ^ 4) ≤ ⌈x * 10 ^ 4⌉ := pyRoundInt_le_ceil _
  have h2 : ⌈x * (10 : ℚ) ^ 4⌉ ≤ 18000 := by
    rw [Int.ceil_le]; push_cast; nlinarith
  have h3 : pyRoundInt (x * (10 : ℚ) ^ 4) ≤ 18000 := le_trans h1 h2
  calc ((pyRoundInt (x * (10 : ℚ) ^ 4) : ℤ) : ℚ) ≤ ((18000 : ℤ) : ℚ) := by
        exact_mod_cast h3
    _ ≤ 9/5 * 10 ^ 4 := by norm_num

theorem foldl_zip_replicate {α : Type} [Field α] (ws : List α) (c : α) :
    ∀ (n : ℕ) (a : α), ws.length ≤ n →
      (ws.zip (List.replicate n c)).foldl (fun acc p => acc + p.1 * p.2) a
        = a + ws.sum * c := by
  induction ws with
  | nil => intro n a _; simp
  | cons w ws ih =>
      intro n a h
      cases n with
      | zero => simp at h
      | succ m =>
          simp only [List.replicate_succ, List.zip_cons_cons, List.foldl_cons]
          rw [ih m (a + w * c) (by simpa using h)]
          simp only [List.sum_cons]
          ring

theorem sum_map_div {α : Type} [Field α] (ws : List α) (b : α) :
    (ws.map (fun w => w / b)).sum = ws.sum / b := by
  induction ws with
  | nil => simp
  | cons w ws ih => simp [ih, add_div]

theorem filterMap_id_replicate_none (k : ℕ) :
    ((List.replicate k (none : Option ℚ)).filterMap id) = [] := by
  induction k with
  | zero => rfl
  | succ m ih => simp [List.replicate_succ, ih]

/-- Key evaluation: on a lookback whose filled values are all equal to c
(here: k gaps and one observation c, so every gap is filled with the
fallback mean c), the weighted moving average is exactly c, because the
decay weights are normalized to sum to 1. -/
theorem _wma_gaps_single (k : ℕ) (c : ℚ) :
    _wma (List.replicate k none ++ [some c]) = c := by
  have hfm : ((List.replicate k none ++ [some c]).filterMap id) = [c] := by
    simp [List.filterMap_append, filterMap_id_replicate_none]
  have hfill : (List.replicate k (none : Option ℚ) ++ [some c]).map
      (fun v => v.getD c) = List.replicate (k + 1) c := by
    simp [List.map_append, List.map_replicate, List.replicate_succ']
  unfold _wma
  rw [hfm]
  have h1 : listMean [c] = c := by simp [listMean]
  simp only [h1, if_neg (by simp : ¬([c] : List ℚ) = [])]
  rw [hfill]
  rw [if_neg (by simp : ¬(List.replicate (k+1) c) = [])]
  have hlenr : (List.replicate (k+1) c).length = k + 1 := by simp
  rw [hlenr]
  set ws := (List.range (k+1)).map (fun i => cfg.wma_decay ^ (k + 1 - 1 - i)) with hws
  have hwslen : ws.length = k + 1 := by simp [hws]
  have hdecay : (0 : ℚ) < cfg.wma_decay := by norm_num [cfg]
  have hpos : 0 < ws.sum := by
    apply List.sum_pos
    · intro x hx
      rw [hws] at hx
      obtain ⟨i, _, rfl⟩ := List.mem_map.mp hx
      exact pow_pos hdecay _
    · rw [← List.length_pos_iff_ne_nil, hwslen]; omega
  rw [foldl_zip_replicate _ _ _ _ (by rw [List.length_map, hwslen])]
  rw [sum_map_div, zero_add, div_self (ne_of_gt hpos), one_mul]

/-- Key evaluation: on a lookback with no observations at all, the gap
fallback mean is 0, every slot is filled with 0, and the weighted moving
average is 0. -/
theorem _wma_all_none (k : ℕ) :
    _wma (List.replicate k none) = 0 := by
  cases k with
  | zero => simp [_wma]
  | succ m =>
      unfold _wma
      rw [filterMap_id_replicate_none]
      simp only [if_pos rfl, if_true, eq_self_iff_true, List.map_replicate,
        Option.getD_none, List.length_replicate]
      rw [if_neg (by simp)]
      rw [foldl_zip_replicate _ _ _ _ (by simp)]
      ring

theorem npVariance_single (v : ℚ) : npVariance [v] = 0 := by
  simp [npVariance, listMean]

theorem npStd_single (v : ℚ) : npStd [v] = 0 := by
  rw [npStd, npVariance_single]
  simp [Real.sqrt_zero]

/-- Evaluation of _confidence_interval when the lookback has no
non-missing value: the heuristic ±20% band with LOW confidence. -/
theorem confidence_interval_no_points (base : ℚ) (volumes : List (Option ℚ))
    (h : volumes.filterMap id = []) :
    _confidence_interval base volumes =
      ((base : ℝ) * (8/10), (base : ℝ) * (12/10), ConfidenceLevel.LOW) := by
  unfold _confidence_interval
  rw [h]
  rfl

/-- Evaluation of _confidence_interval when the lookback has exactly one
non-missing value: the standard deviation is 0, so the band collapses to
[max 0 base, base], and the coefficient of variation is 0 when base ≠ 0
(giving HIGH confidence) and defaults to 1 when base = 0 (giving LOW). -/
theorem confidence_interval_one_point (base v : ℚ) (volumes : List (Option ℚ))
    (h : volumes.filterMap id = [v]) :
    _confidence_interval base volumes =
      (max 0 (base : ℝ), (base : ℝ),
        if base ≠ 0 then ConfidenceLevel.HIGH else ConfidenceLevel.LOW) := by
  unfold _confidence_interval
  rw [h]
  simp only [npStd_single]
  by_cases hb : base = 0
  · subst hb
    norm_num [cfg]
  · norm_num [hb, cfg]

/-! ## C1 — stacked multiplier cap -/

/-- C1: for every historical series, target date and region, the stacked
multiplier applied by TPVForecastEngine.forecast — the product of all
active multiplier values from compute_multipliers, capped by min with the
configured total-multiplier cap — never exceeds the cap (default
1.80 = 9/5); the reported 4-decimal-rounded stacked_multiplier also never
exceeds the cap, and the reported forecast value is the base prediction
times this capped product (rounded to 2 decimals). -/
theorem c1_stacked_multiplier_cap (hist : List HistRow) (target_date : Date)
    (region : String) :
    min ((compute_multipliers target_date region).foldl
        (fun acc m => acc * m.value) 1) cfg.total_multiplier_cap
      ≤ cfg.total_multiplier_cap ∧
    (forecast hist target_date region).stacked_multiplier
      ≤ cfg.total_multiplier_cap ∧
    (forecast hist target_date region).forecast_tpv =
      pyRound 2
        (_wma (fetch_historical_volumes hist target_date cfg.wma_lookback_weeks) *
          min ((compute_multipliers target_date region).foldl
            (fun acc m => acc * m.value) 1) cfg.total_multiplier_cap) ∧
    cfg.total_multiplier_cap = 9/5 := by
  have hcap : cfg.total_multiplier_cap = 9/5 := by norm_num [cfg]
  refine ⟨min_le_right _ _, ?_, rfl, hcap⟩
  have hs : (forecast hist target_date region).stacked_multiplier =
      pyRound 4 (min ((compute_multipliers target_date region).foldl
        (fun acc m => acc * m.value) 1) cfg.total_multiplier_cap) := rfl
  rw [hs, hcap]
  exact pyRound_le_nine_fifths _ (by rw [← hcap]; exact min_le_right _ _)

theorem pyRound_zero {α : Type} [LinearOrderedField α] [FloorRing α] (d : ℕ) :
    pyRound d (0 : α) = 0 := by
  norm_num [pyRound, pyRoundInt]

theorem makeScenario_bps_change (region : String) (ub up : ℚ)
    (cb cu : Option ℚ) (btpv : ℝ) (btu bps : ℤ) :
    (makeScenario region ub up cb cu btpv btu bps).bps_change = bps := rfl

theorem makeScenario_total_tu_ge_one (region : String) (ub up : ℚ)
    (cb cu : Option ℚ) (btpv : ℝ) (btu bps : ℤ) :
    1 ≤ (makeScenario region ub up cb cu btpv btu bps).total_tu :=
  le_max_left _ _

theorem makeScenario_zero_pct (region : String) (ub up : ℚ)
    (cb cu : Option ℚ) (btpv : ℝ) (btu : ℤ) :
    (makeScenario region ub up cb cu btpv btu 0).tpv_change_pct = 0 := by
  unfold makeScenario
  simp only [sub_self, zero_div, zero_mul, pyRound_zero]

/-- Structure of the scenario grid: every scenario of every prediction
block produced by generate_predictions is makeScenario applied to the
block's base values and one of the configured BPS levels. -/
theorem generate_predictions_scenario_shape (hist : List HistRow)
    (region : String) (ub up : ℚ) (cb cu : Option ℚ) (sd : Date)
    (d0 : Option ℕ) (b : FXPredictionBlock)
    (hb : b ∈ (generate_predictions hist region ub up cb cu sd d0).prediction_blocks)
    (s : FXScenario) (hs : s ∈ b.scenarios) :
    ∃ (btpv : ℝ) (btu : ℤ) (bps : ℤ), bps ∈ bps_levels ∧
      s = makeScenario region ub up cb cu btpv btu bps := by
  simp only [generate_predictions] at hb
  split_ifs at hb <;>
    first
      | (simp only [List.mem_map] at hb
         obtain ⟨pred, _, hpred⟩ := hb
         subst hpred
         simp only [List.mem_map] at hs
         obtain ⟨bps, hbpsmem, hsc⟩ := hs
         exact ⟨pred.base_tpv, pred.base_tu, bps, hbpsmem, hsc.symm⟩)
      | simp at hb

/-- Structure of the blocks: every prediction block's scenario list is the
map of makeScenario over the configured BPS levels. -/
theorem generate_predictions_block_shape (hist : List HistRow)
    (region : String) (ub up : ℚ) (cb cu : Option ℚ) (sd : Date)
    (d0 : Option ℕ) (b : FXPredictionBlock)
    (hb : b ∈ (generate_predictions hist region ub up cb cu sd d0).prediction_blocks) :
    ∃ (btpv : ℝ) (btu : ℤ),
      b.scenarios = bps_levels.map (makeScenario region ub up cb cu btpv btu) := by
  simp only [generate_predictions] at hb
  split_ifs at hb <;>
    first
      | (simp only [List.mem_map] at hb
         obtain ⟨pred, _, hpred⟩ := hb
         subst hpred
         exact ⟨pred.base_tpv, pred.base_tu, rfl⟩)
      | simp at hb

/-- Every block has exactly the 9 configured scenarios. -/
theorem generate_predictions_scenarios_length (hist : List HistRow)
    (region : String) (ub up : ℚ) (cb cu : Option ℚ) (sd : Date)
    (d0 : Option ℕ) (b : FXPredictionBlock)
    (hb : b ∈ (generate_predictions hist region ub up cb cu sd d0).prediction_blocks) :
    b.scenarios.length = 9 := by
  obtain ⟨btpv, btu, hscen⟩ :=
    generate_predictions_block_shape hist region ub up cb cu sd d0 b hb
  rw [hscen]
  rfl

/-- The j-th scenario of a block carries the j-th configured BPS level. -/
theorem scenario_get_bps (hist : List HistRow) (region : String) (ub up : ℚ)
    (cb cu : Option ℚ) (sd : Date) (d0 : Option ℕ)
    (i : Fin (generate_predictions hist region ub up cb cu sd d0).prediction_blocks.length)
    (j : Fin (((generate_predictions hist region ub up cb cu sd d0).prediction_blocks.get i).scenarios.length))
    (hj9 : j.1 < bps_levels.length) :
    ((((generate_predictions hist region ub up cb cu sd d0).prediction_blocks.get i).scenarios.get j)).bps_change
      = bps_levels.get ⟨j.1, hj9⟩ := by
  obtain ⟨btpv, btu, hscen⟩ :=
    generate_predictions_block_shape hist region ub up cb cu sd d0 _
      (List.get_mem _ i.1 i.2)
  have hscen' : ((generate_predictions hist region ub up cb cu sd d0).prediction_blocks.get i).scenarios
      = bps_levels.map (makeScenario region ub up cb cu btpv btu) := hscen
  rw [List.get_of_eq hscen' j]
  rw [List.get_eq_getElem, List.getElem_map, makeScenario_bps_change]
  rfl

/-! ## C2 — zero percent change at BPS = 0 -/

/-- C2: in every prediction block generated by
FXScenarioEngine.generate_predictions, for any region, custom rates, start
date and horizon, the scenario whose bps_change is 0 has tpv_change_pct
exactly 0 — the percent change is computed against the bps = 0 volume,
which uses the same multiplier expression, so the numerator vanishes
identically.  In particular the configured tables map bps = 0 to the
identity multiplier 1.0 for both regions. -/
theorem c2_zero_bps_zero_change (hist : List HistRow) (region : String)
    (ub up : ℚ) (cb cu : Option ℚ) (sd : Date) (d0 : Option ℕ)
    (i : Fin (generate_predictions hist region ub up cb cu sd d0).prediction_blocks.length)
    (j : Fin (((generate_predictions hist region ub up cb cu sd d0).prediction_blocks.get i).scenarios.length))
    (hbps : ((((generate_predictions hist region ub up cb cu sd d0).prediction_blocks.get i).scenarios.get j)).bps_change = 0) :
    ((((generate_predictions hist region ub up cb cu sd d0).prediction_blocks.get i).scenarios.get j)).tpv_change_pct = 0 ∧
    _get_multiplier (_region_params "UAE").tpv_multipliers 0 = 1 ∧
    _get_multiplier (_region_params "UK").tpv_multipliers 0 = 1 ∧
    _get_multiplier (_region_params "UAE").tu_multipliers 0 = 1 ∧
    _get_multiplier (_region_params "UK").tu_multipliers 0 = 1 := by
  refine ⟨?_, by rfl, by rfl, by rfl, by rfl⟩
  obtain ⟨btpv, btu, bps, _, hshape⟩ :=
    generate_predictions_scenario_shape hist region ub up cb cu sd d0 _
      (List.get_mem _ i.1 i.2) _ (List.get_mem _ j.1 j.2)
  rw [hshape] at hbps ⊢
  rw [makeScenario_bps_change] at hbps
  subst hbps
  exact makeScenario_zero_pct region ub up cb cu btpv btu

/-! ## C3 — transaction-user floor -/

/-- C3: every scenario of every prediction block generated by
FXScenarioEngine.generate_predictions has total_tu ≥ 1: the code floors
the elasticity-scaled user count with max(1, ·), regardless of how small
the multiplier or the base user count is. -/
theorem c3_total_tu_ge_one (hist : List HistRow) (region : String)
    (ub up : ℚ) (cb cu : Option ℚ) (sd : Date) (d0 : Option ℕ)
    (i : Fin (generate_predictions hist region ub up cb cu sd d0).prediction_blocks.length)
    (j : Fin (((generate_predictions hist region ub up cb cu sd d0).prediction_blocks.get i).scenarios.length)) :
    1 ≤ ((((generate_predictions hist region ub up cb cu sd d0).prediction_blocks.get i).scenarios.get j)).total_tu := by
  obtain ⟨btpv, btu, bps, _, hshape⟩ :=
    generate_predictions_scenario_shape hist region ub up cb cu sd d0 _
      (List.get_mem _ i.1 i.2) _ (List.get_mem _ j.1 j.2)
  rw [hshape]
  exact makeScenario_total_tu_ge_one region ub up cb cu btpv btu bps

/-- Concrete one-row history (a Monday) used to witness the FX claims. -/
def fxWitnessHist : List HistRow := [⟨⟨1, 1, 1⟩, 100, 60, 50⟩]

theorem fxWitness_blocks_length :
    (generate_predictions fxWitnessHist "UAE" 0 0 none none ⟨1, 1, 2⟩
      (some 1)).prediction_blocks.length = 1 := by
  simp [generate_predictions, _get_base_predictions, fxWitnessHist]

/-- Witness for c2_zero_bps_zero_change: a one-day horizon over a one-row
history; the scenario at index 4 is the bps = 0 one and its
tpv_change_pct is 0. -/
theorem c2_zero_bps_zero_change_witness :
    ∃ (hi : 0 < (generate_predictions fxWitnessHist "UAE" 0 0 none none
        ⟨1, 1, 2⟩ (some 1)).prediction_blocks.length)
      (hj : 4 < (((generate_predictions fxWitnessHist "UAE" 0 0 none none
        ⟨1, 1, 2⟩ (some 1)).prediction_blocks.get ⟨0, hi⟩).scenarios.length)),
      ((((generate_predictions fxWitnessHist "UAE" 0 0 none none
        ⟨1, 1, 2⟩ (some 1)).prediction_blocks.get ⟨0, hi⟩).scenarios.get
          ⟨4, hj⟩)).bps_change = 0 ∧
      ((((generate_predictions fxWitnessHist "UAE" 0 0 none none
        ⟨1, 1, 2⟩ (some 1)).prediction_blocks.get ⟨0, hi⟩).scenarios.get
          ⟨4, hj⟩)).tpv_change_pct = 0 := by
  have hi : 0 < (generate_predictions fxWitnessHist "UAE" 0 0 none none
      ⟨1, 1, 2⟩ (some 1)).prediction_blocks.length := by
    rw [fxWitness_blocks_length]; omega
  have hj : 4 < (((generate_predictions fxWitnessHist "UAE" 0 0 none none
      ⟨1, 1, 2⟩ (some 1)).prediction_blocks.get ⟨0, hi⟩).scenarios.length) := by
    rw [generate_predictions_scenarios_length fxWitnessHist "UAE" 0 0 none none
      ⟨1, 1, 2⟩ (some 1) _ (List.get_mem _ 0 hi)]
    omega
  have hbps : ((((generate_predictions fxWitnessHist "UAE" 0 0 none none
      ⟨1, 1, 2⟩ (some 1)).prediction_blocks.get ⟨0, hi⟩).scenarios.get
        ⟨4, hj⟩)).bps_change = 0 := by
    rw [scenario_get_bps fxWitnessHist "UAE" 0 0 none none ⟨1, 1, 2⟩ (some 1)
      ⟨0, hi⟩ ⟨4, hj⟩ (by norm_num [bps_levels])]
    rfl
  exact ⟨hi, hj, hbps,
    (c2_zero_bps_zero_change fxWitnessHist "UAE" 0 0 none none ⟨1, 1, 2⟩
      (some 1) ⟨0, hi⟩ ⟨4, hj⟩ hbps).1⟩

/-- Witness for c3_total_tu_ge_one at the same concrete input: the first
scenario (bps = -20) of the first block has total_tu ≥ 1. -/
theorem c3_total_tu_ge_one_witness :
    ∃ (hi : 0 < (generate_predictions fxWitnessHist "UAE" 0 0 none none
        ⟨1, 1, 2⟩ (some 1)).prediction_blocks.length)
      (hj : 0 < (((generate_predictions fxWitnessHist "UAE" 0 0 none none
        ⟨1, 1, 2⟩ (some 1)).prediction_blocks.get ⟨0, hi⟩).scenarios.length)),
      1 ≤ ((((generate_predictions fxWitnessHist "UAE" 0 0 none none
        ⟨1, 1, 2⟩ (some 1)).prediction_blocks.get ⟨0, hi⟩).scenarios.get
          ⟨0, hj⟩)).total_tu := by
  have hi : 0 < (generate_predictions fxWitnessHist "UAE" 0 0 none none
      ⟨1, 1, 2⟩ (some 1)).prediction_blocks.length := by
    rw [fxWitness_blocks_length]; omega
  have hj : 0 < (((generate_predictions fxWitnessHist "UAE" 0 0 none none
      ⟨1, 1, 2⟩ (some 1)).prediction_blocks.get ⟨0, hi⟩).scenarios.length) := by
    rw [generate_predictions_scenarios_length fxWitnessHist "UAE" 0 0 none none
      ⟨1, 1, 2⟩ (some 1) _ (List.get_mem _ 0 hi)]
    omega
  exact ⟨hi, hj, c3_total_tu_ge_one fxWitnessHist "UAE" 0 0 none none
    ⟨1, 1, 2⟩ (some 1) ⟨0, hi⟩ ⟨0, hj⟩⟩

/-! ## C4 — confidence interval with zero or one historical point -/

/-- C4 counterexample: a lookback holding exactly one non-missing point
(value 100).  The WMA base is 100; the code computes std = 0, hence
cv = 0 < 0.10, and returns confidence HIGH with the zero-width band
(100, 100) — not the claimed LOW confidence with the ±20% band (80, 120). -/
theorem c4_counterexample :
    (List.replicate 11 (none : Option ℚ) ++ [some 100]).filterMap id = [100] ∧
    _wma (List.replicate 11 (none : Option ℚ) ++ [some 100]) = 100 ∧
    _confidence_interval
        (_wma (List.replicate 11 (none : Option ℚ) ++ [some 100]))
        (List.replicate 11 (none : Option ℚ) ++ [some 100])
      = (100, 100, ConfidenceLevel.HIGH) ∧
    ConfidenceLevel.HIGH ≠ ConfidenceLevel.LOW := by
  have hfm : (List.replicate 11 (none : Option ℚ) ++ [some 100]).filterMap id
      = [100] := by
    simp [List.filterMap_append, filterMap_id_replicate_none]
  have hw : _wma (List.replicate 11 (none : Option ℚ) ++ [some 100]) = 100 :=
    _wma_gaps_single 11 100
  refine ⟨hfm, hw, ?_, by simp⟩
  rw [hw, confidence_interval_one_point 100 100 _ hfm]
  norm_num

/-- C4 amended: with zero non-missing historical points the computation
returns confidence LOW with the wide heuristic band base ± 20% of base;
with exactly one non-missing point the standard deviation is 0, so it
returns the zero-width band [max 0 base, base] with confidence HIGH when
base ≠ 0 (cv = 0) and LOW when base = 0. -/
theorem c4_confidence_few_points (base v : ℚ) (volumes : List (Option ℚ)) :
    (volumes.filterMap id = [] →
      _confidence_interval base volumes =
        ((base : ℝ) * (8/10), (base : ℝ) * (12/10), ConfidenceLevel.LOW)) ∧
    (volumes.filterMap id = [v] →
      _confidence_interval base volumes =
        (max 0 (base : ℝ), (base : ℝ),
          if base ≠ 0 then ConfidenceLevel.HIGH else ConfidenceLevel.LOW)) :=
  ⟨confidence_interval_no_points base volumes,
   confidence_interval_one_point base v volumes⟩

/-- Witness for c4_confidence_few_points at concrete inputs: an all-gap
lookback gives the ±20% LOW band around base 50, and a one-point lookback
with base 100 gives the zero-width HIGH band. -/
theorem c4_confidence_few_points_witness :
    _confidence_interval 50 [none, none] = (40, 60, ConfidenceLevel.LOW) ∧
    _confidence_interval 100 [some 100] = (100, 100, ConfidenceLevel.HIGH) := by
  constructor
  · have h := (c4_confidence_few_points 50 0 [none, none]).1 (by rfl)
    rw [h]; norm_num
  · have h := (c4_confidence_few_points 100 100 [some 100]).2 (by rfl)
    rw [h]; norm_num

/-! ## C6 — fallback when no same-weekday data exists -/

theorem fetch_historical_volumes_no_dow (hist : List HistRow) (target : Date)
    (weeks : ℕ)
    (hdow : hist.filter (fun r => r.date.weekday == target.weekday) = []) :
    fetch_historical_volumes hist target weeks = List.replicate weeks none := by
  unfold fetch_historical_volumes
  by_cases hne : hist = []
  · rw [if_pos hne]
  · rw [if_neg hne, hdow]
    simp [sortDatesDesc, List.map_const', List.reverse_replicate]

theorem get_base_predictions_length (hist : List HistRow) (sd : Date)
    (days : ℕ) :
    (_get_base_predictions hist sd days).length
      = if hist.isEmpty then 0 else days := by
  unfold _get_base_predictions
  split_ifs <;> simp

/-- Evaluation of the fallback branch of _get_base_predictions: when no
same-weekday row exists for the i-th target date, the entry's base_tu is
the integer-truncated mean of the trailing 28 transaction counts, and its
base_tpv is the trailing-28 mean volume scaled by the dampened trend
factor and rounded to 2 decimals. -/
theorem get_base_predictions_fallback (hist : List HistRow) (sd : Date)
    (days i : ℕ) (p : BasePred)
    (hp : (_get_base_predictions hist sd days).get? i = some p)
    (hdow : hist.filter (fun r => r.date.weekday == ((sd.addDays i).weekday)) = []) :
    p.base_tu = pyInt (listMean ((listTail hist 28).map HistRow.transactions)) ∧
    p.base_tpv = pyRound 2
      (if 0 < listMean ((listTail hist 14).map HistRow.daily_tpv) then
        ((listMean ((listTail hist 28).map HistRow.daily_tpv) : ℚ) : ℝ) *
          ((max (9/10) (min (11/10)
            (listMean ((listTail hist 7).map HistRow.daily_tpv) /
             listMean ((listTail hist 14).map HistRow.daily_tpv))) : ℚ) : ℝ)
       else ((listMean ((listTail hist 28).map HistRow.daily_tpv) : ℚ) : ℝ)) := by
  unfold _get_base_predictions at hp
  by_cases hne : hist.isEmpty
  · rw [if_pos hne] at hp
    simp at hp
  · rw [if_neg hne] at hp
    rw [List.get?_map] at hp
    cases hrange : (List.range days).get? i with
    | none => rw [hrange] at hp; simp at hp
    | some a =>
        rw [hrange] at hp
        obtain ⟨hlt, hget⟩ := List.get?_eq_some.mp hrange
        have ha : a = i := by
          rw [← hget]
          simp [List.get_eq_getElem, List.getElem_range]
        subst ha
        simp only [Option.map_some'] at hp
        have hpf := Option.some.inj hp
        rw [← hpf]
        constructor <;>
          · simp only [hdow]
            simp [sortDatesDesc]

/-- Concrete history A: 8 Monday rows (volume 100, transactions 60) in
year 1; the target ⟨1,1,30⟩ is a Tuesday, so no same-weekday row exists. -/
def c6histA : List HistRow :=
  [⟨⟨1, 1, 1⟩, 100, 60, 50⟩, ⟨⟨1, 1, 8⟩, 100, 60, 50⟩,
   ⟨⟨1, 1, 15⟩, 100, 60, 50⟩, ⟨⟨1, 1, 22⟩, 100, 60, 50⟩,
   ⟨⟨1, 1, 29⟩, 100, 60, 50⟩, ⟨⟨1, 2, 5⟩, 100, 60, 50⟩,
   ⟨⟨1, 2, 12⟩, 100, 60, 50⟩, ⟨⟨1, 2, 19⟩, 100, 60, 50⟩]

/-- Concrete history B: 8 Monday rows, first volume 100 then seven 210s,
so the 7-day mean (210) differs from the 14-day mean (785/4). -/
def c6histB : List HistRow :=
  [⟨⟨1, 1, 1⟩, 100, 60, 50⟩, ⟨⟨1, 1, 8⟩, 210, 60, 50⟩,
   ⟨⟨1, 1, 15⟩, 210, 60, 50⟩, ⟨⟨1, 1, 22⟩, 210, 60, 50⟩,
   ⟨⟨1, 1, 29⟩, 210, 60, 50⟩, ⟨⟨1, 2, 5⟩, 210, 60, 50⟩,
   ⟨⟨1, 2, 12⟩, 210, 60, 50⟩, ⟨⟨1, 2, 19⟩, 210, 60, 50⟩]

/-- C6 counterexample: (a) in the TPV forecast engine, a history with no
same-weekday observation gives a base prediction of 0 — all lookback
slots are gaps, filled with the mean of an empty set — not the trailing
28-observation mean (here 100); (b) in the FX engine's fallback the base
is the trailing mean times the dampened trend factor: for history B it is
210, not the trailing mean 196.25. -/
theorem c6_counterexample :
    _wma (fetch_historical_volumes c6histA ⟨1, 1, 30⟩ cfg.wma_lookback_weeks) = 0 ∧
    listMean ((listTail c6histA 28).map HistRow.daily_tpv) = 100 ∧
    ((0 : ℚ) ≠ 100) ∧
    ((_get_base_predictions c6histB ⟨1, 1, 30⟩ 1).get? 0).map BasePred.base_tpv
      = some 210 ∧
    listMean ((listTail c6histB 28).map HistRow.daily_tpv) = 785/4 ∧
    ((210 : ℝ) ≠ ((785/4 : ℚ) : ℝ)) := by
  have hdowA : c6histA.filter
      (fun r => r.date.weekday == (Date.weekday ⟨1, 1, 30⟩)) = [] := by decide
  have hdowB : c6histB.filter
      (fun r => r.date.weekday == ((Date.addDays ⟨1, 1, 30⟩ 0).weekday)) = [] := by
    decide
  refine ⟨?_, by norm_num [c6histA, listTail, listMean], by norm_num, ?_,
    by norm_num [c6histB, listTail, listMean], by push_cast; norm_num⟩
  · rw [fetch_historical_volumes_no_dow c6histA ⟨1, 1, 30⟩ _ hdowA]
    exact _wma_all_none _
  · have hlen : (_get_base_predictions c6histB ⟨1, 1, 30⟩ 1).length = 1 := by
      rw [get_base_predictions_length]
      rfl
    have hlt : 0 < (_get_base_predictions c6histB ⟨1, 1, 30⟩ 1).length := by omega
    have hp := List.get?_eq_get hlt
    have hfall := get_base_predictions_fallback c6histB ⟨1, 1, 30⟩ 1 0 _ hp hdowB
    rw [hp, Option.map_some']
    rw [hfall.2]
    have h14 : listMean ((listTail c6histB 14).map HistRow.daily_tpv) = 785/4 := by
      norm_num [c6histB, listTail, listMean]
    have h7 : listMean ((listTail c6histB 7).map HistRow.daily_tpv) = 210 := by
      norm_num [c6histB, listTail, listMean]
    have h28 : listMean ((listTail c6histB 28).map HistRow.daily_tpv) = 785/4 := by
      norm_num [c6histB, listTail, listMean]
    rw [h14, h7, h28]
    rw [if_pos (by norm_num)]
    have hclamp : (max (9/10) (min (11/10) ((210 : ℚ) / (785/4))) : ℚ) = 168/157 := by
      norm_num
    rw [hclamp]
    have hprod : (((785/4 : ℚ) : ℝ)) * (((168/157 : ℚ) : ℝ)) = 210 := by
      push_cast
      norm_num
    rw [hprod]
    norm_num [pyRound, pyRoundInt]

/-- C6 amended: when no same-weekday observation exists, the FX engine's
base predictions (_get_base_predictions) fall back to the trailing-28
means — base_tu is the integer-truncated mean of the trailing 28
transaction counts exactly, while base_tpv is the trailing-28 mean volume
subsequently multiplied by the dampened 7-day/14-day trend factor
(clamped to [0.9, 1.1], applied only when the trailing-14 mean is
positive) and rounded to 2 decimals; the TPV forecast engine's own base
prediction (fetch_historical_volumes + _wma) is 0 in that case, not the
trailing mean. -/
theorem c6_no_same_weekday_fallback (hist : List HistRow)
    (start_date target : Date) (days : ℕ) :
    (hist ≠ [] →
      hist.filter (fun r => r.date.weekday == target.weekday) = [] →
      _wma (fetch_historical_volumes hist target cfg.wma_lookback_weeks) = 0) ∧
    (∀ (i : ℕ) (p : BasePred),
      (_get_base_predictions hist start_date days).get? i = some p →
      hist.filter (fun r => r.date.weekday == ((start_date.addDays i).weekday)) = [] →
      p.base_tu = pyInt (listMean ((listTail hist 28).map HistRow.transactions)) ∧
      p.base_tpv = pyRound 2
        (if 0 < listMean ((listTail hist 14).map HistRow.daily_tpv) then
          ((listMean ((listTail hist 28).map HistRow.daily_tpv) : ℚ) : ℝ) *
            ((max (9/10) (min (11/10)
              (listMean ((listTail hist 7).map HistRow.daily_tpv) /
               listMean ((listTail hist 14).map HistRow.daily_tpv))) : ℚ) : ℝ)
         else ((listMean ((listTail hist 28).map HistRow.daily_tpv) : ℚ) : ℝ))) := by
  constructor
  · intro _ hdow
    rw [fetch_historical_volumes_no_dow hist target _ hdow]
    exact _wma_all_none _
  · intro i p hp hdow
    exact get_base_predictions_fallback hist start_date days i p hp hdow

/-- Witness for c6_no_same_weekday_fallback: history A (8 Mondays, volume
100, transactions 60) with a Tuesday target; the TPV base is 0 and the FX
fallback gives base_tu = 60 and base_tpv = 100. -/
theorem c6_no_same_weekday_fallback_witness :
    _wma (fetch_historical_volumes c6histA ⟨1, 1, 30⟩ cfg.wma_lookback_weeks) = 0 ∧
    ((_get_base_predictions c6histA ⟨1, 1, 30⟩ 1).get? 0).map BasePred.base_tu
      = some 60 := by
  have hdowA : c6histA.filter
      (fun r => r.date.weekday == (Date.weekday ⟨1, 1, 30⟩)) = [] := by decide
  have hdowA' : c6histA.filter
      (fun r => r.date.weekday == ((Date.addDays ⟨1, 1, 30⟩ 0).weekday)) = [] := by
    decide
  constructor
  · exact (c6_no_same_weekday_fallback c6histA ⟨1, 1, 30⟩ ⟨1, 1, 30⟩ 1).1
      (by simp [c6histA]) hdowA
  · have hlen : (_get_base_predictions c6histA ⟨1, 1, 30⟩ 1).length = 1 := by
      rw [get_base_predictions_length]
      rfl
    have hlt : 0 < (_get_base_predictions c6histA ⟨1, 1, 30⟩ 1).length := by omega
    have hp := List.get?_eq_get hlt
    have hfall := ((c6_no_same_weekday_fallback c6histA ⟨1, 1, 30⟩ ⟨1, 1, 30⟩ 1).2
      0 _ hp hdowA').1
    rw [hp, Option.map_some', hfall]
    have : listMean ((listTail c6histA 28).map HistRow.transactions) = 60 := by
      norm_num [c6histA, listTail, listMean]
    rw [this]
    norm_num [pyInt]

/-! ## C7 — deviation check -/

theorem listTail_length {α : Type} (l : List α) (n : ℕ) :
    (listTail l n).length = min n l.length := by
  simp [listTail]
  omega

/-- C7: the deviation check returns no anomaly when fewer than 8 trailing
observations exist or the mean of the preceding 7 observations is zero;
otherwise it flags exactly when the absolute percent deviation of the
latest value from that 7-day mean exceeds 20, with severity CRITICAL above
40 and WARNING otherwise; in particular latest 150 against a 7-day average
of 100 yields deviation_pct 50.0 with severity CRITICAL. -/
theorem c7_check_deviation_spec :
    (∀ series : List ℚ,
      let recent := listTail series 8
      let latest := recent.getLastD 0
      let avg_7d := listMean recent.dropLast
      let deviation := ((latest - avg_7d) / avg_7d) * 100
      (series.length < 8 → check_deviation series = none) ∧
      (8 ≤ series.length → avg_7d = 0 → check_deviation series = none) ∧
      (8 ≤ series.length → avg_7d ≠ 0 →
        (|deviation| ≤ 20 → check_deviation series = none) ∧
        (20 < |deviation| → check_deviation series =
          some { latest := latest, avg_7d := avg_7d,
                 deviation_pct := pyRound 2 deviation,
                 severity := if 40 < |deviation| then AlertSeverity.CRITICAL
                   else AlertSeverity.WARNING }))) ∧
    check_deviation [100, 100, 100, 100, 100, 100, 100, 150] =
      some { latest := 150, avg_7d := 100, deviation_pct := 50,
             severity := AlertSeverity.CRITICAL } := by
  constructor
  · intro series
    have hlen : (listTail series 8).length = min 8 series.length :=
      listTail_length series 8
    refine ⟨?_, ?_, ?_⟩
    · intro h
      unfold check_deviation
      rw [if_pos (by omega)]
    · intro h8 hz
      unfold check_deviation
      rw [if_neg (by omega)]
      simp only [hz, if_pos rfl]
      rfl
    · intro h8 hz
      constructor
      · intro hle
        unfold check_deviation
        rw [if_neg (by omega)]
        simp only [if_neg hz]
        rw [if_neg (not_lt.mpr hle)]
      · intro hgt
        unfold check_deviation
        rw [if_neg (by omega)]
        simp only [if_neg hz]
        rw [if_pos hgt]
  · norm_num [check_deviation, listTail, listMean, pyRound, pyRoundInt]

/-- Witness for c7_check_deviation_spec: its general part applied to a
concrete 8-point series with a 30% deviation, discharging the length and
nonzero-mean hypotheses there. -/
theorem c7_check_deviation_spec_witness :
    check_deviation [100, 100, 100, 100, 100, 100, 100, 130] =
      some { latest := 130, avg_7d := 100, deviation_pct := 30,
             severity := AlertSeverity.WARNING } := by
  have h1 := c7_check_deviation_spec.1
    [100, 100, 100, 100, 100, 100, 100, 130]
  simp only [] at h1
  have havg : listMean (listTail
      ([100, 100, 100, 100, 100, 100, 100, 130] : List ℚ) 8).dropLast = 100 := by
    norm_num [listTail, listMean]
  have hres := (h1.2.2 (by norm_num) (by rw [havg]; norm_num)).2
  rw [havg] at hres
  have hlast : (listTail
      ([100, 100, 100, 100, 100, 100, 100, 130] : List ℚ) 8).getLastD 0 = 130 := by
    norm_num [listTail]
  rw [hlast] at hres
  have := hres (by norm_num)
  rw [this]
  norm_num [pyRound, pyRoundInt]

/-! ## C8 — growth check -/

/-- Boundary series for the growth check: 30 observations with 30-day mean
exactly 100 and 7-day mean exactly 115 (growth exactly 15%). -/
def growthBoundarySeries : List ℚ :=
  105 :: (List.replicate 22 95 ++ List.replicate 7 115)

/-- C8: the growth check needs at least 14 trailing observations and a
nonzero 30-day mean, and then flags exactly when the absolute percent
growth of the 7-day mean over the 30-day mean strictly exceeds 15 — a
growth of exactly 15.0 (7-day mean 115 vs 30-day mean 100) does NOT
trigger — with direction ACCELERATING for positive growth, DECELERATING
for negative, and severity WARNING. -/
theorem c8_check_growth_spec :
    (∀ series : List ℚ,
      let recent := listTail series 30
      let avg_7d := listMean (listTail recent 7)
      let avg_30d := listMean recent
      let growth := ((avg_7d - avg_30d) / avg_30d) * 100
      (series.length < 14 → check_growth series = none) ∧
      (14 ≤ series.length → avg_30d = 0 → check_growth series = none) ∧
      (14 ≤ series.length → avg_30d ≠ 0 →
        (|growth| ≤ 15 → check_growth series = none) ∧
        (15 < |growth| → check_growth series =
          some { avg_7d := avg_7d, avg_30d := avg_30d,
                 growth_pct := pyRound 2 growth,
                 direction := if 0 < growth then "ACCELERATING"
                   else "DECELERATING",
                 severity := AlertSeverity.WARNING }))) ∧
    listMean (listTail (listTail growthBoundarySeries 30) 7) = 115 ∧
    listMean (listTail growthBoundarySeries 30) = 100 ∧
    check_growth growthBoundarySeries = none := by
  refine ⟨?_,
    by norm_num [growthBoundarySeries, listMean, listTail, List.replicate],
    by norm_num [growthBoundarySeries, listMean, listTail, List.replicate],
    by norm_num [check_growth, growthBoundarySeries, listMean, listTail,
      List.replicate]⟩
  intro series
  have hlen : (listTail series 30).length = min 30 series.length :=
    listTail_length series 30
  refine ⟨?_, ?_, ?_⟩
  · intro h
    unfold check_growth
    rw [if_pos (by omega)]
  · intro h14 hz
    unfold check_growth
    rw [if_neg (by omega)]
    simp only [hz, if_pos rfl]
    rfl
  · intro h14 hz
    constructor
    · intro hle
      unfold check_growth
      rw [if_neg (by omega)]
      simp only [if_neg hz]
      rw [if_neg (not_lt.mpr hle)]
    · intro hgt
      unfold check_growth
      rw [if_neg (by omega)]
      simp only [if_neg hz]
      rw [if_pos hgt]

/-! ## C5, C9, C10 — ensemble forecaster lemmas -/

theorem linspace_length (a b : ℝ) (n : ℕ) : (linspace a b n).length = n := by
  match n with
  | 0 => rfl
  | 1 => rfl
  | (k + 2) =>
      show ((List.range (k + 2)).map
        (fun i : ℕ => a + (b - a) * (i : ℝ) / (((k + 2 : ℕ) : ℝ) - 1))).length = k + 2
      rw [List.length_map, List.length_range]

theorem listMean_replicate {α : Type} [Field α] [CharZero α] (m : ℕ)
    (hm : m ≠ 0) (c : α) : listMean (List.replicate m c) = c := by
  rw [listMean, List.sum_replicate, List.length_replicate, nsmul_eq_mul]
  rw [mul_comm, mul_div_assoc, div_self (by exact_mod_cast hm), mul_one]

/-- On a constant stored tail the normalized exponential weights average
to the constant and the 7-day vs 14-day trend vanishes, so every
prediction equals the constant. -/
theorem wma_predict_const (w k : ℕ) (hk : 0 < k) (c : ℚ) (dates : List Date) :
    (WeightedMovingAvgModel.mk w (List.replicate k c)).predict dates
      = (List.range dates.length).map (fun _ => ((c : ℚ) : ℝ)) := by
  have hlen : (List.replicate k c).length = k := by simp
  have hwlen : ((linspace (-2) 0 (List.replicate k c).length).map Real.exp).length
      = k := by rw [List.length_map, linspace_length, hlen]
  have hpos : 0 < ((linspace (-2) 0 (List.replicate k c).length).map Real.exp).sum := by
    apply List.sum_pos
    · intro x hx
      obtain ⟨t, _, rfl⟩ := List.mem_map.mp hx
      exact Real.exp_pos t
    · rw [← List.length_pos_iff_ne_nil, hwlen]; omega
  have hbase : dotR
      (((linspace (-2) 0 (List.replicate k c).length).map Real.exp).map
        (fun x => x / ((linspace (-2) 0 (List.replicate k c).length).map Real.exp).sum))
      ((List.replicate k c).map (fun v => ((v : ℚ) : ℝ))) = ((c : ℚ) : ℝ) := by
    rw [List.map_replicate]
    unfold dotR
    rw [foldl_zip_replicate _ _ _ _ (by rw [List.length_map, hwlen])]
    rw [sum_map_div, zero_add, div_self (ne_of_gt hpos), one_mul]
  have htail7 : listTail (List.replicate k c) 7 = List.replicate (min 7 k) c := by
    rw [listTail, List.length_replicate, List.drop_replicate]
    congr 1
    omega
  have htail14 : (listTail (List.replicate k c) 14).take 7
      = List.replicate (min 7 (min 14 k)) c := by
    rw [listTail, List.length_replicate, List.drop_replicate, List.take_replicate]
    congr 1
    omega
  have htrend : (if 14 ≤ (List.replicate k c).length then
      (listMean (listTail (List.replicate k c) 7)
        - listMean ((listTail (List.replicate k c) 14).take 7)) / 7
      else 0) = 0 := by
    split_ifs with h14
    · rw [hlen] at h14
      rw [htail7, htail14]
      have e1 : listMean (List.replicate (min 7 k) c) = c :=
        listMean_replicate _ (by omega) c
      have e2 : listMean (List.replicate (min 7 (min 14 k)) c) = c :=
        listMean_replicate _ (by omega) c
      rw [e1, e2]
      simp
    · rfl
  simp only [WeightedMovingAvgModel.predict]
  rw [hbase, htrend]
  simp

theorem mem_of_mem_insertAscQ (x y : ℚ) (l : List ℚ)
    (h : y ∈ insertAscQ x l) : y = x ∨ y ∈ l := by
  induction l with
  | nil => simpa [insertAscQ] using h
  | cons z zs ih =>
      rw [insertAscQ] at h
      split_ifs at h with hle
      · simpa using h
      · rcases List.mem_cons.mp h with h1 | h2
        · exact Or.inr (by simp [h1])
        · rcases ih h2 with h3 | h4
          · exact Or.inl h3
          · exact Or.inr (List.mem_cons_of_mem _ h4)

theorem mem_of_mem_sortAscQ (y : ℚ) (l : List ℚ) (h : y ∈ sortAscQ l) :
    y ∈ l := by
  induction l with
  | nil => simpa [sortAscQ] using h
  | cons z zs ih =>
      rw [sortAscQ] at h
      rcases mem_of_mem_insertAscQ z y _ h with h1 | h2
      · simp [h1]
      · exact List.mem_cons_of_mem _ (ih h2)

theorem getD_nonneg_of_forall (s : List ℚ) (i : ℕ) (d : ℚ) (hd : 0 ≤ d)
    (h : ∀ x ∈ s, 0 ≤ x) : 0 ≤ s.getD i d := by
  rcases hx : s.get? i with _ | x
  · rw [List.getD_eq_getElem?_getD, ← List.get?_eq_getElem?, hx]
    simpa using hd
  · rw [List.getD_eq_getElem?_getD, ← List.get?_eq_getElem?, hx]
    simpa using h x (List.get?_mem hx)

theorem listMedian_nonneg (l : List ℚ) (h : ∀ x ∈ l, 0 ≤ x) :
    0 ≤ listMedian l := by
  have hs : ∀ x ∈ sortAscQ l, 0 ≤ x :=
    fun x hx => h x (mem_of_mem_sortAscQ x l hx)
  simp only [listMedian]
  split_ifs
  · exact le_refl 0
  · exact getD_nonneg_of_forall _ _ _ (le_refl 0) hs
  · have h1 := getD_nonneg_of_forall (sortAscQ l)
      ((sortAscQ l).length / 2 - 1) 0 (le_refl 0) hs
    have h2 := getD_nonneg_of_forall (sortAscQ l)
      ((sortAscQ l).length / 2) 0 (le_refl 0) hs
    positivity

/-- The seasonal day-of-week factors are nonnegative whenever the fitted
values are: each factor is 1 or the median of ratios value / max(pred, 1)
with nonnegative numerators and positive denominators. -/
theorem seasonal_dow_factors_nonneg (w : ℕ) (dates : List Date)
    (values : List ℚ) (hv : ∀ v ∈ values, 0 ≤ v) :
    ∀ f ∈ (SeasonalLinearModel.fit w dates values).dow_factors, 0 ≤ f := by
  intro f hf
  simp only [SeasonalLinearModel.fit, List.mem_map] at hf
  obtain ⟨k, _, hfk⟩ := hf
  rw [← hfk]
  split_ifs with hg
  · norm_num
  · apply listMedian_nonneg
    intro x hx
    simp only [List.mem_map, List.mem_filter] at hx
    obtain ⟨p, ⟨hpz, _⟩, hpx⟩ := hx
    have hsnd := (List.mem_zip hpz).2
    simp only [List.mem_map] at hsnd
    obtain ⟨q, hq, hqx⟩ := hsnd
    have hq1 : q.1 ∈ values := by
      have := (List.mem_zip hq).1
      exact List.mem_of_mem_drop this
    have hq2 : (0 : ℚ) ≤ q.2 := by
      have := (List.mem_zip hq).2
      simp only [List.mem_map] at this
      obtain ⟨t, _, ht⟩ := this
      rw [← ht]
      have : (1 : ℚ) ≤ max t 1 := le_max_right t 1
      linarith
    rw [← hpx, ← hqx]
    exact div_nonneg (hv q.1 hq1) hq2

/-! ## C5 — ensemble combination order of clamping -/

/-- Dates for the C5 counterexample: 29 consecutive days. -/
def c5dates : List Date :=
  [⟨1, 1, 1⟩, ⟨1, 1, 2⟩, ⟨1, 1, 3⟩, ⟨1, 1, 4⟩, ⟨1, 1, 5⟩, ⟨1, 1, 6⟩,
   ⟨1, 1, 7⟩, ⟨1, 1, 8⟩, ⟨1, 1, 9⟩, ⟨1, 1, 10⟩, ⟨1, 1, 11⟩, ⟨1, 1, 12⟩,
   ⟨1, 1, 13⟩, ⟨1, 1, 14⟩, ⟨1, 1, 15⟩, ⟨1, 1, 16⟩, ⟨1, 1, 17⟩, ⟨1, 1, 18⟩,
   ⟨1, 1, 19⟩, ⟨1, 1, 20⟩, ⟨1, 1, 21⟩, ⟨1, 1, 22⟩, ⟨1, 1, 23⟩, ⟨1, 1, 24⟩,
   ⟨1, 1, 25⟩, ⟨1, 1, 26⟩, ⟨1, 1, 27⟩, ⟨1, 1, 28⟩, ⟨1, 1, 29⟩]

/-- Values for the C5 counterexample: one huge initial value then 28
constant values, so the OLS trend is steeply negative while the stored
WMA tail is constant. -/
def c5values : List ℚ := 30000 :: List.replicate 28 100

theorem c5_slope_intercept :
    (LinearTrendModel.fit c5dates c5values).slope = -5980/29 ∧
    (LinearTrendModel.fit c5dates c5values).intercept = 122500/29 := by
  constructor <;>
    norm_num [LinearTrendModel.fit, _date_to_ordinal, listMean, c5dates,
      c5values, Date.toOrdinal, daysBeforeMonth, daysInMonth, isLeapYear,
      List.replicate]

theorem c5_linear_pred :
    ((LinearTrendModel.fit c5dates c5values).predict [⟨1, 1, 30⟩]).getD 0 0
      = -56900/29 := by
  unfold LinearTrendModel.predict
  rw [c5_slope_intercept.1, c5_slope_intercept.2]
  norm_num [Date.toOrdinal, daysBeforeMonth, daysInMonth, isLeapYear]

theorem c5_wma_state :
    WeightedMovingAvgModel.fit 28 c5values
      = WeightedMovingAvgModel.mk 28 (List.replicate 28 100) := by
  rfl

theorem c5_wma_pred :
    ((EnsembleForecaster.fit c5dates c5values).wma.predict [⟨1, 1, 30⟩]).getD 0 0
      = 100 := by
  rw [show (EnsembleForecaster.fit c5dates c5values).wma
      = WeightedMovingAvgModel.fit 28 c5values from rfl]
  rw [c5_wma_state, wma_predict_const 28 28 (by omega) 100]
  norm_num

theorem c5_values_nonneg : ∀ v ∈ c5values, (0 : ℚ) ≤ v := by
  intro v hv
  simp [c5values, List.mem_replicate] at hv
  rcases hv with h | h <;> rw [h] <;> norm_num

theorem c5_seasonal_pred :
    ((EnsembleForecaster.fit c5dates c5values).seasonal.predict [⟨1, 1, 30⟩]).getD 0 0
      = (-56900/29) *
        ((SeasonalLinearModel.fit 90 c5dates c5values).dow_factors.getD 1 1) := by
  rw [show (EnsembleForecaster.fit c5dates c5values).seasonal
      = SeasonalLinearModel.fit 90 c5dates c5values from rfl]
  unfold SeasonalLinearModel.predict
  rw [show (SeasonalLinearModel.fit 90 c5dates c5values).linear
      = LinearTrendModel.fit c5dates c5values from rfl]
  unfold LinearTrendModel.predict
  rw [c5_slope_intercept.1, c5_slope_intercept.2]
  have hw : Date.weekday ⟨1, 1, 30⟩ = 1 := by decide
  simp [hw, Date.toOrdinal, daysBeforeMonth, daysInMonth, isLeapYear]
  left
  norm_num

theorem c5_seasonal_nonpos :
    ((EnsembleForecaster.fit c5dates c5values).seasonal.predict [⟨1, 1, 30⟩]).getD 0 0
      ≤ 0 := by
  rw [c5_seasonal_pred]
  have hfac : 0 ≤ (SeasonalLinearModel.fit 90 c5dates c5values).dow_factors.getD 1 1 :=
    getD_nonneg_of_forall _ 1 1 (by norm_num)
      (seasonal_dow_factors_nonneg 90 c5dates c5values c5_values_nonneg)
  nlinarith

/-- The four claim-relevant columns of a predict row, unfolded. -/
theorem predictRow_fields (m : EnsembleForecaster) (dates : List Date) (i : ℕ) :
    (m.predictRow dates i).Ensemble
      = max ((((ENSEMBLE_WEIGHTS.lookup "linear").getD 0 : ℚ) : ℝ)
            * (((m.linear.predict dates).getD i 0 : ℚ) : ℝ)
          + (((ENSEMBLE_WEIGHTS.lookup "wma").getD 0 : ℚ) : ℝ)
            * ((m.wma.predict dates).getD i 0)
          + (((ENSEMBLE_WEIGHTS.lookup "seasonal_linear").getD 0 : ℚ) : ℝ)
            * (((m.seasonal.predict dates).getD i 0 : ℚ) : ℝ)) 0 ∧
    (m.predictRow dates i).Linear
      = max (((m.linear.predict dates).getD i 0 : ℚ) : ℝ) 0 ∧
    (m.predictRow dates i).WMA = max ((m.wma.predict dates).getD i 0) 0 ∧
    (m.predictRow dates i).Seasonal
      = max (((m.seasonal.predict dates).getD i 0 : ℚ) : ℝ) 0 :=
  ⟨rfl, rfl, rfl, rfl⟩

/-- C5 counterexample: a fitted forecaster where the linear (and seasonal)
raw predictions are negative while the WMA prediction is 100.  The code's
Ensemble value is max(0.25·lin + 0.35·wma + 0.40·sea, 0) = 0, whereas the
claimed combination of the negative-clamped outputs is
0.25·0 + 0.35·100 + 0.40·0 = 35. -/
theorem c5_counterexample :
    ((EnsembleForecaster.fit c5dates c5values).predictRow [⟨1, 1, 30⟩] 0).Ensemble
      = 0 ∧
    ((EnsembleForecaster.fit c5dates c5values).predictRow [⟨1, 1, 30⟩] 0).Linear
      = 0 ∧
    ((EnsembleForecaster.fit c5dates c5values).predictRow [⟨1, 1, 30⟩] 0).WMA
      = 100 ∧
    ((EnsembleForecaster.fit c5dates c5values).predictRow [⟨1, 1, 30⟩] 0).Seasonal
      = 0 ∧
    ((EnsembleForecaster.fit c5dates c5values).predict [⟨1, 1, 30⟩]).get? 0
      = some ((EnsembleForecaster.fit c5dates c5values).predictRow [⟨1, 1, 30⟩] 0) ∧
    specEnsembleValue
      ((((EnsembleForecaster.fit c5dates c5values).linear.predict [⟨1, 1, 30⟩]).getD 0 0 : ℚ) : ℝ)
      (((EnsembleForecaster.fit c5dates c5values).wma.predict [⟨1, 1, 30⟩]).getD 0 0)
      ((((EnsembleForecaster.fit c5dates c5values).seasonal.predict [⟨1, 1, 30⟩]).getD 0 0 : ℚ) : ℝ)
      = 35 ∧
    (0 : ℝ) ≠ 35 := by
  have hlin : ((EnsembleForecaster.fit c5dates c5values).linear.predict
      [⟨1, 1, 30⟩]).getD 0 0 = -56900/29 := c5_linear_pred
  have hwma := c5_wma_pred
  have hseale := c5_seasonal_nonpos
  have hlinR : ((((EnsembleForecaster.fit c5dates c5values).linear.predict
      [⟨1, 1, 30⟩]).getD 0 0 : ℚ) : ℝ) ≤ 0 := by
    rw [hlin]
    push_cast
    norm_num
  have hseaR : ((((EnsembleForecaster.fit c5dates c5values).seasonal.predict
      [⟨1, 1, 30⟩]).getD 0 0 : ℚ) : ℝ) ≤ 0 := by
    exact_mod_cast hseale
  have hwl : ((ENSEMBLE_WEIGHTS.lookup "linear").getD 0 : ℚ) = 25/100 := rfl
  have hww : ((ENSEMBLE_WEIGHTS.lookup "wma").getD 0 : ℚ) = 35/100 := rfl
  have hws : ((ENSEMBLE_WEIGHTS.lookup "seasonal_linear").getD 0 : ℚ) = 40/100 := rfl
  refine ⟨?_, ?_, ?_, ?_, ?_, ?_, by norm_num⟩
  · rw [(predictRow_fields (EnsembleForecaster.fit c5dates c5values)
      [⟨1, 1, 30⟩] 0).1]
    apply max_eq_right
    rw [hlin, hwma, hwl, hww, hws]
    have h1 : (((25/100 : ℚ) : ℝ)) * (((-56900/29 : ℚ) : ℝ)) + (((35/100 : ℚ) : ℝ)) * 100
        = -14225/29 + 35 := by
      push_cast
      ring
    nlinarith [hseaR, h1,
      show (0 : ℝ) ≤ (((40/100 : ℚ) : ℝ)) by push_cast; norm_num,
      mul_nonpos_of_nonneg_of_nonpos
        (show (0 : ℝ) ≤ (((40/100 : ℚ) : ℝ)) by push_cast; norm_num) hseaR]
  · rw [(predictRow_fields (EnsembleForecaster.fit c5dates c5values)
      [⟨1, 1, 30⟩] 0).2.1]
    exact max_eq_right hlinR
  · rw [(predictRow_fields (EnsembleForecaster.fit c5dates c5values)
      [⟨1, 1, 30⟩] 0).2.2.1, hwma]
    exact max_eq_left (by norm_num)
  · rw [(predictRow_fields (EnsembleForecaster.fit c5dates c5values)
      [⟨1, 1, 30⟩] 0).2.2.2]
    exact max_eq_right hseaR
  · simp [EnsembleForecaster.predict]
  · unfold specEnsembleValue
    rw [max_eq_right hlinR, max_eq_right hseaR, hwma,
      max_eq_left (show (0 : ℝ) ≤ 100 by norm_num)]
    norm_num

/-- C5 amended: the per-model columns of EnsembleForecaster.predict are
the negative-clamped model outputs, but the Ensemble column is the fixed
weighted sum of the RAW (unclamped) model outputs, clamped to zero only
after combination; the fixed weights are 0.25, 0.35, 0.40 and sum to
1.0. -/
theorem c5_ensemble_combination (m : EnsembleForecaster) (dates : List Date)
    (i : ℕ) :
    (m.predictRow dates i).Ensemble
      = max ((((ENSEMBLE_WEIGHTS.lookup "linear").getD 0 : ℚ) : ℝ)
            * (((m.linear.predict dates).getD i 0 : ℚ) : ℝ)
          + (((ENSEMBLE_WEIGHTS.lookup "wma").getD 0 : ℚ) : ℝ)
            * ((m.wma.predict dates).getD i 0)
          + (((ENSEMBLE_WEIGHTS.lookup "seasonal_linear").getD 0 : ℚ) : ℝ)
            * (((m.seasonal.predict dates).getD i 0 : ℚ) : ℝ)) 0 ∧
    (m.predictRow dates i).Linear
      = max (((m.linear.predict dates).getD i 0 : ℚ) : ℝ) 0 ∧
    (m.predictRow dates i).WMA = max ((m.wma.predict dates).getD i 0) 0 ∧
    (m.predictRow dates i).Seasonal
      = max (((m.seasonal.predict dates).getD i 0 : ℚ) : ℝ) 0 ∧
    (ENSEMBLE_WEIGHTS.lookup "linear").getD 0 = 1/4 ∧
    (ENSEMBLE_WEIGHTS.lookup "wma").getD 0 = 7/20 ∧
    (ENSEMBLE_WEIGHTS.lookup "seasonal_linear").getD 0 = 2/5 ∧
    (ENSEMBLE_WEIGHTS.lookup "linear").getD 0
      + (ENSEMBLE_WEIGHTS.lookup "wma").getD 0
      + (ENSEMBLE_WEIGHTS.lookup "seasonal_linear").getD 0 = 1 ∧
    m.predict dates = (List.range dates.length).map (m.predictRow dates) := by
  refine ⟨rfl, rfl, rfl, rfl, ?_, ?_, ?_, ?_, rfl⟩
  · rw [show ENSEMBLE_WEIGHTS.lookup "linear" = some (25/100) from rfl]
    norm_num
  · rw [show ENSEMBLE_WEIGHTS.lookup "wma" = some (35/100) from rfl]
    norm_num
  · rw [show ENSEMBLE_WEIGHTS.lookup "seasonal_linear" = some (40/100) from rfl]
    norm_num
  · rw [show ENSEMBLE_WEIGHTS.lookup "linear" = some (25/100) from rfl,
      show ENSEMBLE_WEIGHTS.lookup "wma" = some (35/100) from rfl,
      show ENSEMBLE_WEIGHTS.lookup "seasonal_linear" = some (40/100) from rfl]
    norm_num

/-! ## C9 — fit determinism -/

/-- C9: fitting the ensemble forecaster twice on identical dates and
values yields identical linear slope, intercept and R² (and identical
full model state) — the fitting pipeline is a pure function of its
inputs, with no hidden random state. -/
theorem c9_fit_deterministic (d1 d2 : List Date) (v1 v2 : List ℚ)
    (hd : d1 = d2) (hv : v1 = v2) :
    (EnsembleForecaster.fit d1 v1).linear.slope
      = (EnsembleForecaster.fit d2 v2).linear.slope ∧
    (EnsembleForecaster.fit d1 v1).linear.intercept
      = (EnsembleForecaster.fit d2 v2).linear.intercept ∧
    (EnsembleForecaster.fit d1 v1).linear.r2
      = (EnsembleForecaster.fit d2 v2).linear.r2 ∧
    EnsembleForecaster.fit d1 v1 = EnsembleForecaster.fit d2 v2 := by
  subst hd
  subst hv
  exact ⟨rfl, rfl, rfl, rfl⟩

/-- Witness for c9_fit_deterministic: two fits on the same concrete
two-point series agree. -/
theorem c9_fit_deterministic_witness :
    (EnsembleForecaster.fit [⟨1, 1, 1⟩, ⟨1, 1, 2⟩] [10, 20]).linear.slope
      = (EnsembleForecaster.fit [⟨1, 1, 1⟩, ⟨1, 1, 2⟩] [10, 20]).linear.slope ∧
    (EnsembleForecaster.fit [⟨1, 1, 1⟩, ⟨1, 1, 2⟩] [10, 20]).linear.intercept
      = (EnsembleForecaster.fit [⟨1, 1, 1⟩, ⟨1, 1, 2⟩] [10, 20]).linear.intercept ∧
    (EnsembleForecaster.fit [⟨1, 1, 1⟩, ⟨1, 1, 2⟩] [10, 20]).linear.r2
      = (EnsembleForecaster.fit [⟨1, 1, 1⟩, ⟨1, 1, 2⟩] [10, 20]).linear.r2 ∧
    EnsembleForecaster.fit [⟨1, 1, 1⟩, ⟨1, 1, 2⟩] [10, 20]
      = EnsembleForecaster.fit [⟨1, 1, 1⟩, ⟨1, 1, 2⟩] [10, 20] :=
  c9_fit_deterministic [⟨1, 1, 1⟩, ⟨1, 1, 2⟩] [⟨1, 1, 1⟩, ⟨1, 1, 2⟩]
    [10, 20] [10, 20] rfl rfl

/-! ## C10 — WMA first prediction carries no trend -/

/-- C10: the first entry of WeightedMovingAvgModel.predict is exactly the
normalized exponential-weight dot product of the stored tail values — the
per-day trend term is multiplied by the date index, which is 0 for the
first date — and consequently a single-date predict call returns exactly
that dot product, never reflecting the 7-day vs 14-day trend. -/
theorem c10_wma_first_prediction (m : WeightedMovingAvgModel)
    (dates : List Date) (hne : dates ≠ []) :
    (m.predict dates).get? 0 = some (dotR
      (((linspace (-2) 0 m.last_values.length).map Real.exp).map
        (fun w => w / ((linspace (-2) 0 m.last_values.length).map Real.exp).sum))
      (m.last_values.map (fun v => ((v : ℚ) : ℝ)))) ∧
    ∀ d : Date, m.predict [d] = [dotR
      (((linspace (-2) 0 m.last_values.length).map Real.exp).map
        (fun w => w / ((linspace (-2) 0 m.last_values.length).map Real.exp).sum))
      (m.last_values.map (fun v => ((v : ℚ) : ℝ)))] := by
  constructor
  · cases dates with
    | nil => exact absurd rfl hne
    | cons d ds =>
        simp only [WeightedMovingAvgModel.predict, List.length_cons,
          List.range_succ_eq_map, List.map_cons, List.get?_cons_zero]
        norm_num
  · intro d
    simp only [WeightedMovingAvgModel.predict, List.length_singleton]
    rw [show List.range 1 = [0] from by decide]
    simp

/-- Witness for c10_wma_first_prediction at a concrete fitted state (tail
[3, 5]) and a one-date request. -/
theorem c10_wma_first_prediction_witness :
    ((WeightedMovingAvgModel.mk 28 [3, 5]).predict [⟨1, 1, 1⟩]).get? 0
      = some (dotR
        (((linspace (-2) 0 ([3, 5] : List ℚ).length).map Real.exp).map
          (fun w => w / ((linspace (-2) 0 ([3, 5] : List ℚ).length).map Real.exp).sum))
        (([3, 5] : List ℚ).map (fun v => ((v : ℚ) : ℝ)))) :=
  (c10_wma_first_prediction ⟨28, [3, 5]⟩ [⟨1, 1, 1⟩] (by simp)).1

/-- Witness for c8_check_growth_spec: its general part applied to a
concrete 14-point series whose 7-day mean is 25% below the 30-day mean,
discharging the length and nonzero-mean hypotheses there. -/
theorem c8_check_growth_spec_witness :
    check_growth (List.replicate 7 100 ++ List.replicate 7 60) =
      some { avg_7d := 60, avg_30d := 80, growth_pct := -25,
             direction := "DECELERATING", severity := AlertSeverity.WARNING } := by
  have h1 := c8_check_growth_spec.1 (List.replicate 7 100 ++ List.replicate 7 60)
  simp only [] at h1
  have h30 : listMean (listTail
      ((List.replicate 7 (100 : ℚ) ++ List.replicate 7 60)) 30) = 80 := by
    norm_num [listTail, listMean, List.replicate]
  have h7 : listMean (listTail (listTail
      ((List.replicate 7 (100 : ℚ) ++ List.replicate 7 60)) 30) 7) = 60 := by
    norm_num [listTail, listMean, List.replicate]
  have hres := (h1.2.2 (by norm_num [List.replicate])
    (by rw [h30]; norm_num)).2
  rw [h30, h7] at hres
  have := hres (by norm_num)
  rw [this]
  norm_num [pyRound, pyRoundInt]

end TPVSpec